import Mathlib

/-!
# ToDo gRPC service (pkg/service/v1/todo.go)

A shallow embedding of the five operations of `toDoServiceServer`
(`Create`, `Read`, `Update`, `Delete`, `ReadAll`) together with the helpers
`checkAPI` and `connect`.

The service talks to three external collaborators, none of which is part of the
repository: the `database/sql` connection pool, the `ptypes` timestamp
conversions and the gRPC `status` package.  They are embedded as follows.

* `database/sql` is a parameter: a `Driver σ` gives, for a database state `σ`,
  the outcome of `db.Conn`, `c.ExecContext` and `c.QueryContext`.  A result set
  (`Rows`) is the list of rows still to be delivered, each with the outcome of
  its `Scan`, and the error `rows.Err()` reports once the list is exhausted.
* `ptypes.Timestamp` / `ptypes.TimestampProto` are embedded from the library
  (range validation of seconds and nanos around `time.Unix`).
* a status error is the pair of its code and its message.

The theorems about the handlers hold for every `Driver`.  A store modelled from
the spec (`granularDriver`) serves as a concrete driver: it supplies the inputs
at which the theorems are instantiated and the store of the counterexamples.

Every operation returns a `Run`: the outcome of the call, the database state it
leaves, and the trace of the connection-level driver calls it made, in order
(`db.Conn`, `c.ExecContext`, `c.QueryContext`, `c.Close`).
-/

namespace ToDoService

/-! ## Status errors -/

/-- The gRPC status codes the service uses (`google.golang.org/grpc/codes`). -/
inductive Code where
  | OK
  | Unknown
  | InvalidArgument
  | NotFound
  | Unimplemented
  deriving DecidableEq, Repr

/-- A status error as built by `status.Error(code, msg)`. -/
structure Status where
  code : Code
  message : String
  deriving DecidableEq, Repr

/-- What a handler call ends in: `(resp, nil)`, `(nil, err)`, or a run-time panic
(a nil pointer dereference), which unwinds the handler without returning. -/
inductive Outcome (α : Type) where
  | ok (resp : α)
  | error (st : Status)
  | panic
  deriving DecidableEq, Repr

/-! ## Timestamps -/

/-- The wire timestamp `timestamp.Timestamp`: `Seconds int64`, `Nanos int32`. -/
structure Timestamp where
  seconds : Int
  nanos : Int
  deriving DecidableEq, Repr

/-- A `time.Time` in UTC, observed through `t.Unix()` and `t.Nanosecond()`. -/
structure Time where
  sec : Int
  nsec : Int
  deriving DecidableEq, Repr

/-- The value an `int64` holds after an operation whose exact result is `x`
(two's complement wrap-around). -/
def wrapInt64 (x : Int) : Int :=
  (x + 9223372036854775808) % 18446744073709551616 - 9223372036854775808

/-- `time.Unix(sec, nsec)`: nanoseconds outside `[0, 1e9)` are carried into the
seconds, in `int64` arithmetic. -/
def Time.unix (sec nsec : Int) : Time :=
  if nsec < 0 ∨ nsec ≥ 1000000000 then
    let n := Int.tdiv nsec 1000000000
    let sec1 := wrapInt64 (sec + n)
    let nsec1 := nsec - n * 1000000000
    if nsec1 < 0 then ⟨wrapInt64 (sec1 - 1), nsec1 + 1000000000⟩ else ⟨sec1, nsec1⟩
  else ⟨sec, nsec⟩

/-- Seconds field of the earliest valid timestamp, 0001-01-01T00:00:00Z. -/
def minValidSeconds : Int := -62135596800

/-- Seconds field just after the latest valid timestamp, 10000-01-01T00:00:00Z. -/
def maxValidSeconds : Int := 253402300800

/-- The text `%v` prints for a timestamp inside the validation messages: the
compact text form, which leaves out a field whose value is zero and ends every
field it prints with a blank. -/
def Timestamp.render (ts : Timestamp) : String :=
  (if ts.seconds = 0 then "" else "seconds:" ++ toString ts.seconds ++ " ") ++
  (if ts.nanos = 0 then "" else "nanos:" ++ toString ts.nanos ++ " ")

/-- `validateTimestamp` of ptypes: `none` is a nil error. -/
def validateTimestamp (ts : Option Timestamp) : Option String :=
  match ts with
  | none => some "timestamp: nil Timestamp"
  | some ts =>
    if ts.seconds < minValidSeconds then
      some ("timestamp: " ++ ts.render ++ " before 0001-01-01")
    else if ts.seconds ≥ maxValidSeconds then
      some ("timestamp: " ++ ts.render ++ " after 10000-01-01")
    else if ts.nanos < 0 ∨ ts.nanos ≥ 1000000000 then
      some ("timestamp: " ++ ts.render ++ ": nanos not in range [0, 1e9)")
    else none

namespace ptypes

/-- `ptypes.Timestamp(ts)`: the time value, or the validation error.  (The Go
function also returns a time next to a non-nil error; no caller here reads it.) -/
def Timestamp (ts : Option ToDoService.Timestamp) : Except String Time :=
  match validateTimestamp ts with
  | some e => .error e
  | none =>
    match ts with
    | none => .ok (Time.unix 0 0)
    | some ts => .ok (Time.unix ts.seconds ts.nanos)

/-- `ptypes.TimestampProto(t)`: the wire timestamp, or the validation error. -/
def TimestampProto (t : Time) : Except String ToDoService.Timestamp :=
  let ts : ToDoService.Timestamp := ⟨t.sec, t.nsec⟩
  match validateTimestamp (some ts) with
  | some e => .error e
  | none => .ok ts

end ptypes

/-! ## Messages of pkg/api/v1 -/

/-- The message `v1.ToDo`; `reminder = none` is a nil `*timestamp.Timestamp`. -/
structure ToDo where
  id : Int
  title : String
  description : String
  reminder : Option Timestamp
  deriving DecidableEq, Repr

/-- Request of `Create`; `toDo = none` is a nil `*v1.ToDo`. -/
structure CreateRequest where
  api : String
  toDo : Option ToDo
  deriving DecidableEq, Repr

structure CreateResponse where
  api : String
  id : Int
  deriving DecidableEq, Repr

structure ReadRequest where
  api : String
  id : Int
  deriving DecidableEq, Repr

structure ReadResponse where
  api : String
  toDo : ToDo
  deriving DecidableEq, Repr

/-- Request of `Update`; `toDo = none` is a nil `*v1.ToDo`. -/
structure UpdateRequest where
  api : String
  toDo : Option ToDo
  deriving DecidableEq, Repr

structure UpdateResponse where
  api : String
  updated : Int
  deriving DecidableEq, Repr

structure DeleteRequest where
  api : String
  id : Int
  deriving DecidableEq, Repr

structure DeleteResponse where
  api : String
  deleted : Int
  deriving DecidableEq, Repr

structure ReadAllRequest where
  api : String
  deriving DecidableEq, Repr

/-- Response of `ReadAll`; `toDos = none` is a nil slice, `some []` the empty,
non-nil slice. -/
structure ReadAllResponse where
  api : String
  toDos : Option (List ToDo)
  deriving DecidableEq, Repr

/-! ## The database driver -/

/-- The three statements the service passes to `ExecContext`, with their
arguments in the order of the placeholders:
`INSERT INTO todo(Title, Description, Reminder) VALUES(?, ?, ?)`,
`UPDATE todo SET Title=?, Description=?, Reminder=? WHERE ID=?`,
`DELETE FROM todo WHERE ID=?`. -/
inductive Stmt where
  | insert (title description : String) (reminder : Time)
  | update (title description : String) (reminder : Time) (id : Int)
  | delete (id : Int)
  deriving DecidableEq, Repr

/-- The two statements the service passes to `QueryContext`:
`SELECT ID, Title, Description, Reminder FROM todo WHERE ID=?` and
`SELECT ID, Title, Description, Reminder FROM todo`. -/
inductive Query where
  | selectById (id : Int)
  | selectAll
  deriving DecidableEq, Repr

/-- An `sql.Result`: what `LastInsertId()` and `RowsAffected()` return. -/
structure Result where
  lastInsertId : Except String Int
  rowsAffected : Except String Int

/-- The values `rows.Scan(&td.Id, &td.Title, &td.Description, &reminder)` stores. -/
structure Scanned where
  id : Int
  title : String
  description : String
  reminder : Time
  deriving DecidableEq, Repr

/-- An `sql.Rows` cursor: the rows `Next()` will still deliver, each with the
outcome of its `Scan`, and the error `Err()` reports when they are exhausted. -/
structure Rows where
  pending : List (Except String Scanned)
  err : Option String

/-- `rows.Next()`: `none` when it returns false, else the row and the cursor
after it. -/
def Rows.next (rows : Rows) : Option (Except String Scanned × Rows) :=
  match rows.pending with
  | [] => none
  | r :: rest => some (r, ⟨rest, rows.err⟩)

/-- The outcome of each driver call in database state `σ`. -/
structure Driver (σ : Type) where
  conn : σ → Option String
  exec : Stmt → σ → Except String Result × σ
  query : Query → σ → Except String Rows

/-- A driver call made by a handler: `db.Conn` (whether or not it succeeds),
`c.Close`, `c.ExecContext` and `c.QueryContext` with the statement passed. -/
inductive Event where
  | conn
  | close
  | exec (stmt : Stmt)
  | query (q : Query)
  deriving DecidableEq, Repr

/-- A handler call: its outcome, the database state after it, and the driver
calls it made. -/
structure Run (σ α : Type) where
  out : Outcome α
  db : σ
  trace : List Event

/-! ## The service -/

def apiVersion : String := "v1"

/-- `checkAPI`: `none` is a nil error. -/
def checkAPI (api : String) : Option Status :=
  if api.utf8ByteSize > 0 then
    if apiVersion ≠ api then
      some ⟨.Unimplemented,
        "unsupported API version: service implements API version '" ++ apiVersion
          ++ "', but asked for '" ++ api ++ "'"⟩
    else none
  else none

/-- `connect`: `s.db.Conn(ctx)`, a failure wrapped as `Unknown`. -/
def connect {σ : Type} (d : Driver σ) (s : σ) : Except Status Unit :=
  match d.conn s with
  | some e => .error ⟨.Unknown, "failed to connect to database-> " ++ e⟩
  | none => .ok ()

/-- The message of the `NotFound` errors, `fmt.Sprintf` with `%d`. -/
def notFoundMsg (id : Int) : String :=
  "todo with ID='" ++ toString id ++ "' is not found"

/-- The message of the multiple-rows error of `Read`. -/
def multipleMsg (id : Int) : String :=
  "found multiple todo rows with ID='" ++ toString id ++ "'"

def Create {σ : Type} (d : Driver σ) (s : σ) (req : CreateRequest) :
    Run σ CreateResponse :=
  match checkAPI req.api with
  | some err => ⟨.error err, s, []⟩
  | none =>
    match connect d s with
    | .error err => ⟨.error err, s, [.conn]⟩
    | .ok () =>
      -- defer c.Close()
      match req.toDo with
      | none => ⟨.panic, s, [.conn, .close]⟩
      | some td =>
        match ptypes.Timestamp td.reminder with
        | .error e =>
          ⟨.error ⟨.InvalidArgument, "reminder field has invalid format-> " ++ e⟩, s,
            [.conn, .close]⟩
        | .ok reminder =>
          let stmt := Stmt.insert td.title td.description reminder
          match d.exec stmt s with
          | (.error e, s1) =>
            ⟨.error ⟨.Unknown, "failed to insert into todo-> " ++ e⟩, s1,
              [.conn, .exec stmt, .close]⟩
          | (.ok res, s1) =>
            match res.lastInsertId with
            | .error e =>
              ⟨.error ⟨.Unknown, "failed to retrieve id for created todo-> " ++ e⟩, s1,
                [.conn, .exec stmt, .close]⟩
            | .ok id => ⟨.ok ⟨apiVersion, id⟩, s1, [.conn, .exec stmt, .close]⟩

/-- The item `Read` and `ReadAll` build from a scanned row and its converted
reminder. -/
def Scanned.toToDo (v : Scanned) (ts : Timestamp) : ToDo :=
  ⟨v.id, v.title, v.description, some ts⟩

def Read {σ : Type} (d : Driver σ) (s : σ) (req : ReadRequest) : Run σ ReadResponse :=
  match checkAPI req.api with
  | some err => ⟨.error err, s, []⟩
  | none =>
    match connect d s with
    | .error err => ⟨.error err, s, [.conn]⟩
    | .ok () =>
      -- defer c.Close()
      let q := Query.selectById req.id
      match d.query q s with
      | .error e =>
        ⟨.error ⟨.Unknown, "failed to select from todo-> " ++ e⟩, s, [.conn, .query q, .close]⟩
      | .ok rows =>
        -- defer rows.Close()
        match rows.next with
        | none =>
          match rows.err with
          | some e =>
            ⟨.error ⟨.Unknown, "failed to retrieve data from todo-> " ++ e⟩, s,
              [.conn, .query q, .close]⟩
          | none => ⟨.error ⟨.NotFound, notFoundMsg req.id⟩, s, [.conn, .query q, .close]⟩
        | some (row, rows1) =>
          match row with
          | .error e =>
            ⟨.error ⟨.Unknown, "failed to retrieve field values from todo row-> " ++ e⟩, s,
              [.conn, .query q, .close]⟩
          | .ok v =>
            match ptypes.TimestampProto v.reminder with
            | .error e =>
              ⟨.error ⟨.Unknown, "reminder field has invalid format-> " ++ e⟩, s,
                [.conn, .query q, .close]⟩
            | .ok ts =>
              match rows1.next with
              | some _ =>
                ⟨.error ⟨.Unknown, multipleMsg req.id⟩, s, [.conn, .query q, .close]⟩
              | none => ⟨.ok ⟨apiVersion, v.toToDo ts⟩, s, [.conn, .query q, .close]⟩

def Update {σ : Type} (d : Driver σ) (s : σ) (req : UpdateRequest) :
    Run σ UpdateResponse :=
  match checkAPI req.api with
  | some err => ⟨.error err, s, []⟩
  | none =>
    match connect d s with
    | .error err => ⟨.error err, s, [.conn]⟩
    | .ok () =>
      -- defer c.Close()
      match req.toDo with
      | none => ⟨.panic, s, [.conn, .close]⟩
      | some td =>
        match ptypes.Timestamp td.reminder with
        | .error e =>
          ⟨.error ⟨.InvalidArgument, "reminder field has invalid format-> " ++ e⟩, s,
            [.conn, .close]⟩
        | .ok reminder =>
          let stmt := Stmt.update td.title td.description reminder td.id
          match d.exec stmt s with
          | (.error e, s1) =>
            ⟨.error ⟨.Unknown, "failed to update todo-> " ++ e⟩, s1,
              [.conn, .exec stmt, .close]⟩
          | (.ok res, s1) =>
            match res.rowsAffected with
            | .error e =>
              ⟨.error ⟨.Unknown, "failed to retrieve rows affected value-> " ++ e⟩, s1,
                [.conn, .exec stmt, .close]⟩
            | .ok rows =>
              if rows = 0 then
                ⟨.error ⟨.NotFound, notFoundMsg td.id⟩, s1, [.conn, .exec stmt, .close]⟩
              else ⟨.ok ⟨apiVersion, rows⟩, s1, [.conn, .exec stmt, .close]⟩

def Delete {σ : Type} (d : Driver σ) (s : σ) (req : DeleteRequest) :
    Run σ DeleteResponse :=
  match checkAPI req.api with
  | some err => ⟨.error err, s, []⟩
  | none =>
    match connect d s with
    | .error err => ⟨.error err, s, [.conn]⟩
    | .ok () =>
      -- defer c.Close()
      let stmt := Stmt.delete req.id
      match d.exec stmt s with
      | (.error e, s1) =>
        ⟨.error ⟨.Unknown, "failed to delete todo-> " ++ e⟩, s1, [.conn, .exec stmt, .close]⟩
      | (.ok res, s1) =>
        match res.rowsAffected with
        | .error e =>
          ⟨.error ⟨.Unknown, "failed to retrieve rows affected value-> " ++ e⟩, s1,
            [.conn, .exec stmt, .close]⟩
        | .ok rows =>
          if rows = 0 then
            ⟨.error ⟨.NotFound, notFoundMsg req.id⟩, s1, [.conn, .exec stmt, .close]⟩
          else ⟨.ok ⟨apiVersion, rows⟩, s1, [.conn, .exec stmt, .close]⟩

/-- The loop `for rows.Next() \x7b ... \x7d` of `ReadAll`: `list` is the slice built
so far; the loop ends in the finished slice or in the error it returns with. -/
def readAllLoop (pending : List (Except String Scanned)) (list : List ToDo) :
    Except Status (List ToDo) :=
  match pending with
  | [] => .ok list
  | row :: rest =>
    match row with
    | .error e =>
      .error ⟨.Unknown, "failed to retrieve field values from todo row-> " ++ e⟩
    | .ok v =>
      match ptypes.TimestampProto v.reminder with
      | .error e => .error ⟨.Unknown, "reminder field has invalid format-> " ++ e⟩
      | .ok ts => readAllLoop rest (list ++ [v.toToDo ts])

def ReadAll {σ : Type} (d : Driver σ) (s : σ) (req : ReadAllRequest) :
    Run σ ReadAllResponse :=
  match checkAPI req.api with
  | some err => ⟨.error err, s, []⟩
  | none =>
    match connect d s with
    | .error err => ⟨.error err, s, [.conn]⟩
    | .ok () =>
      -- defer c.Close()
      let q := Query.selectAll
      match d.query q s with
      | .error e =>
        ⟨.error ⟨.Unknown, "failed to select from todo-> " ++ e⟩, s, [.conn, .query q, .close]⟩
      | .ok rows =>
        -- defer rows.Close()
        match readAllLoop rows.pending [] with
        | .error err => ⟨.error err, s, [.conn, .query q, .close]⟩
        | .ok list =>
          match rows.err with
          | some e =>
            ⟨.error ⟨.Unknown, "failed to retrieve data from todo-> " ++ e⟩, s,
              [.conn, .query q, .close]⟩
          | none => ⟨.ok ⟨apiVersion, some list⟩, s, [.conn, .query q, .close]⟩

/-! ## A store behind the driver

The storage backend is an external collaborator; no code of it is part of the
repository.  The definitions of this section are modelled from the spec
(sections 3 and 6): one table `todo` keyed by an auto-assigned integer, two text
columns and one temporal column, which keeps a time value to the granularity of
its stored representation.  The modelled store serves every call; a backend that
fails a call is covered by the theorems stated for an arbitrary `Driver`. -/

/-- Modelled from the spec: a row of table `todo` of the storage backend (id, two
text columns, one temporal column). -/
structure Row where
  id : Int
  title : String
  description : String
  reminder : Time
  deriving DecidableEq, Repr

/-- Modelled from the spec: the table of the storage backend and the counter its
ids are assigned from, which lies above every id in use (ids are unique and
never reused). -/
structure Store where
  rows : List Row
  autoInc : Int
  fresh : ∀ r ∈ rows, r.id < autoInc

/-- Modelled from the spec: the rows a `WHERE ID=?` clause of the storage backend
selects. -/
def Store.matching (st : Store) (id : Int) : List Row :=
  st.rows.filter (fun r => r.id = id)

/-- Modelled from the spec: `INSERT` in the storage backend; the new row takes
the counter as its id. -/
def Store.insert (st : Store) (title description : String) (reminder : Time) : Store where
  rows := st.rows ++ [⟨st.autoInc, title, description, reminder⟩]
  autoInc := st.autoInc + 1
  fresh := by
    intro r hr
    rcases List.mem_append.mp hr with h | h
    · have := st.fresh r h
      omega
    · have : r.id = st.autoInc := by
        rw [List.mem_singleton.mp h]
      omega

/-- Modelled from the spec: `UPDATE ... WHERE ID=?` in the storage backend; the
three columns of every matching row are overwritten. -/
def Store.update (st : Store) (title description : String) (reminder : Time) (id : Int) :
    Store where
  rows := st.rows.map (fun r => if r.id = id then ⟨r.id, title, description, reminder⟩ else r)
  autoInc := st.autoInc
  fresh := by
    intro r hr
    obtain ⟨r0, h0, rfl⟩ := List.mem_map.mp hr
    have := st.fresh r0 h0
    split <;> simpa using this

/-- Modelled from the spec: `DELETE ... WHERE ID=?` in the storage backend. -/
def Store.delete (st : Store) (id : Int) : Store where
  rows := st.rows.filter (fun r => r.id ≠ id)
  autoInc := st.autoInc
  fresh := fun r hr => st.fresh r (List.mem_of_mem_filter hr)

/-- What `Scan` reads from a stored row. -/
def Row.scanned (r : Row) : Scanned := ⟨r.id, r.title, r.description, r.reminder⟩

/-- Modelled from the spec: the storage backend as a driver.  `g` is the
granularity of the temporal column: a time value `t` is stored as `g t`.  Every
call is served; the affected-row count is the number of rows the `WHERE` clause
selects. -/
def granularDriver (g : Time → Time) : Driver Store where
  conn := fun _ => none
  exec := fun stmt st =>
    match stmt with
    | .insert t d r => (.ok ⟨.ok st.autoInc, .ok 1⟩, st.insert t d (g r))
    | .update t d r id =>
      (.ok ⟨.ok 0, .ok (st.matching id).length⟩, st.update t d (g r) id)
    | .delete id =>
      (.ok ⟨.ok 0, .ok (st.matching id).length⟩, st.delete id)
  query := fun q st =>
    match q with
    | .selectById id =>
      .ok ⟨(st.matching id).map (fun r => .ok r.scanned), none⟩
    | .selectAll =>
      .ok ⟨st.rows.map (fun r => .ok r.scanned), none⟩

/-- Modelled from the spec: the storage backend whose temporal column keeps a
time value as it was given. -/
def storeDriver : Driver Store := granularDriver (fun t => t)

/-- Modelled from the spec: the granularity of a temporal column that keeps
whole seconds. -/
def wholeSeconds (t : Time) : Time := ⟨t.sec, 0⟩

/-- A driver that answers every call with a fixed outcome and has no state. -/
def fixedDriver (c : Option String) (e : Except String Result) (q : Except String Rows) :
    Driver Unit where
  conn := fun _ => c
  exec := fun _ _ => (e, ())
  query := fun _ _ => q

/-! ## Observations on a call -/

/-- The status code a call failed with, if it returned an error. -/
def Outcome.code? {α : Type} : Outcome α → Option Code
  | .error st => some st.code
  | _ => none

/-- The message of the error a call returned, if it returned one. -/
def Outcome.message? {α : Type} : Outcome α → Option String
  | .error st => some st.message
  | _ => none

/-- The response a call returned, if it succeeded. -/
def Outcome.resp? {α : Type} : Outcome α → Option α
  | .ok r => some r
  | _ => none

/-- The tags the version check turns away: non-empty and different from "v1". -/
def rejectedTag (api : String) : Prop := api ≠ "" ∧ api ≠ "v1"

instance (api : String) : Decidable (rejectedTag api) := by
  unfold rejectedTag
  infer_instance

/-- A call made no `ExecContext` call. -/
def noExec (trace : List Event) : Prop := ∀ stmt, Event.exec stmt ∉ trace

/-- The message of the version error for tag `api`. -/
def unsupportedMsg (api : String) : String :=
  "unsupported API version: service implements API version 'v1', but asked for '" ++ api ++ "'"

/-- A message of the form `<cause>-> <underlying error text>`. -/
def wrapped (cause e : String) : String := cause ++ "-> " ++ e

/-- The call passed the version check and obtained its connection. -/
def Connected {σ : Type} (d : Driver σ) (s : σ) (api : String) : Prop :=
  ¬ rejectedTag api ∧ d.conn s = none

/-- The errors of `Create`, one case for each step that can fail, with the
conditions under which that step is the first to fail. -/
inductive CreateError {σ : Type} (d : Driver σ) (s : σ) (req : CreateRequest) :
    Status → Prop where
  | version : rejectedTag req.api →
      CreateError d s req ⟨.Unimplemented, unsupportedMsg req.api⟩
  | connection (e : String) : ¬ rejectedTag req.api → d.conn s = some e →
      CreateError d s req ⟨.Unknown, wrapped "failed to connect to database" e⟩
  | reminder (td : ToDo) (e : String) : Connected d s req.api → req.toDo = some td →
      ptypes.Timestamp td.reminder = .error e →
      CreateError d s req ⟨.InvalidArgument, wrapped "reminder field has invalid format" e⟩
  | statement (td : ToDo) (t : Time) (e : String) (s1 : σ) : Connected d s req.api →
      req.toDo = some td → ptypes.Timestamp td.reminder = .ok t →
      d.exec (.insert td.title td.description t) s = (.error e, s1) →
      CreateError d s req ⟨.Unknown, wrapped "failed to insert into todo" e⟩
  | lastInsertId (td : ToDo) (t : Time) (res : Result) (e : String) (s1 : σ) :
      Connected d s req.api → req.toDo = some td → ptypes.Timestamp td.reminder = .ok t →
      d.exec (.insert td.title td.description t) s = (.ok res, s1) →
      res.lastInsertId = .error e →
      CreateError d s req ⟨.Unknown, wrapped "failed to retrieve id for created todo" e⟩

/-- The body of the loop of `ReadAll` on one row: the item appended to the list,
or `none` when `Scan` or the reminder conversion fails. -/
def decodeRow (row : Except String Scanned) : Option ToDo :=
  match row with
  | .error _ => none
  | .ok v =>
    match ptypes.TimestampProto v.reminder with
    | .error _ => none
    | .ok ts => some (v.toToDo ts)

/-- The errors of `Read`, one case for each step that can fail, with the
conditions under which that step is the first to fail. -/
inductive ReadError {σ : Type} (d : Driver σ) (s : σ) (req : ReadRequest) :
    Status → Prop where
  | version : rejectedTag req.api →
      ReadError d s req ⟨.Unimplemented, unsupportedMsg req.api⟩
  | connection (e : String) : ¬ rejectedTag req.api → d.conn s = some e →
      ReadError d s req ⟨.Unknown, wrapped "failed to connect to database" e⟩
  | query (e : String) : Connected d s req.api →
      d.query (.selectById req.id) s = .error e →
      ReadError d s req ⟨.Unknown, wrapped "failed to select from todo" e⟩
  | iteration (rows : Rows) (e : String) : Connected d s req.api →
      d.query (.selectById req.id) s = .ok rows → rows.pending = [] → rows.err = some e →
      ReadError d s req ⟨.Unknown, wrapped "failed to retrieve data from todo" e⟩
  | notFound (rows : Rows) : Connected d s req.api →
      d.query (.selectById req.id) s = .ok rows → rows.pending = [] → rows.err = none →
      ReadError d s req ⟨.NotFound, notFoundMsg req.id⟩
  | scan (rows : Rows) (e : String) (rest : List (Except String Scanned)) :
      Connected d s req.api → d.query (.selectById req.id) s = .ok rows →
      rows.pending = .error e :: rest →
      ReadError d s req ⟨.Unknown, wrapped "failed to retrieve field values from todo row" e⟩
  | reminder (rows : Rows) (v : Scanned) (e : String) (rest : List (Except String Scanned)) :
      Connected d s req.api → d.query (.selectById req.id) s = .ok rows →
      rows.pending = .ok v :: rest → ptypes.TimestampProto v.reminder = .error e →
      ReadError d s req ⟨.Unknown, wrapped "reminder field has invalid format" e⟩
  | multiple (rows : Rows) (v : Scanned) (ts : Timestamp) (r : Except String Scanned)
      (rest : List (Except String Scanned)) :
      Connected d s req.api → d.query (.selectById req.id) s = .ok rows →
      rows.pending = .ok v :: r :: rest → ptypes.TimestampProto v.reminder = .ok ts →
      ReadError d s req ⟨.Unknown, multipleMsg req.id⟩

/-- The errors of `Update`, one case for each step that can fail, with the
conditions under which that step is the first to fail. -/
inductive UpdateError {σ : Type} (d : Driver σ) (s : σ) (req : UpdateRequest) :
    Status → Prop where
  | version : rejectedTag req.api →
      UpdateError d s req ⟨.Unimplemented, unsupportedMsg req.api⟩
  | connection (e : String) : ¬ rejectedTag req.api → d.conn s = some e →
      UpdateError d s req ⟨.Unknown, wrapped "failed to connect to database" e⟩
  | reminder (td : ToDo) (e : String) : Connected d s req.api → req.toDo = some td →
      ptypes.Timestamp td.reminder = .error e →
      UpdateError d s req ⟨.InvalidArgument, wrapped "reminder field has invalid format" e⟩
  | statement (td : ToDo) (t : Time) (e : String) (s1 : σ) : Connected d s req.api →
      req.toDo = some td → ptypes.Timestamp td.reminder = .ok t →
      d.exec (.update td.title td.description t td.id) s = (.error e, s1) →
      UpdateError d s req ⟨.Unknown, wrapped "failed to update todo" e⟩
  | rowsAffected (td : ToDo) (t : Time) (res : Result) (e : String) (s1 : σ) :
      Connected d s req.api → req.toDo = some td → ptypes.Timestamp td.reminder = .ok t →
      d.exec (.update td.title td.description t td.id) s = (.ok res, s1) →
      res.rowsAffected = .error e →
      UpdateError d s req ⟨.Unknown, wrapped "failed to retrieve rows affected value" e⟩
  | notFound (td : ToDo) (t : Time) (res : Result) (s1 : σ) :
      Connected d s req.api → req.toDo = some td → ptypes.Timestamp td.reminder = .ok t →
      d.exec (.update td.title td.description t td.id) s = (.ok res, s1) →
      res.rowsAffected = .ok 0 →
      UpdateError d s req ⟨.NotFound, notFoundMsg td.id⟩

/-- The errors of `Delete`, one case for each step that can fail, with the
conditions under which that step is the first to fail. -/
inductive DeleteError {σ : Type} (d : Driver σ) (s : σ) (req : DeleteRequest) :
    Status → Prop where
  | version : rejectedTag req.api →
      DeleteError d s req ⟨.Unimplemented, unsupportedMsg req.api⟩
  | connection (e : String) : ¬ rejectedTag req.api → d.conn s = some e →
      DeleteError d s req ⟨.Unknown, wrapped "failed to connect to database" e⟩
  | statement (e : String) (s1 : σ) : Connected d s req.api →
      d.exec (.delete req.id) s = (.error e, s1) →
      DeleteError d s req ⟨.Unknown, wrapped "failed to delete todo" e⟩
  | rowsAffected (res : Result) (e : String) (s1 : σ) : Connected d s req.api →
      d.exec (.delete req.id) s = (.ok res, s1) → res.rowsAffected = .error e →
      DeleteError d s req ⟨.Unknown, wrapped "failed to retrieve rows affected value" e⟩
  | notFound (res : Result) (s1 : σ) : Connected d s req.api →
      d.exec (.delete req.id) s = (.ok res, s1) → res.rowsAffected = .ok 0 →
      DeleteError d s req ⟨.NotFound, notFoundMsg req.id⟩

/-- The errors of `ReadAll`, one case for each step that can fail, with the
conditions under which that step is the first to fail: a row fails after the
rows `pre` before it have all been decoded and converted, and the iteration
error is reported after all rows have been. -/
inductive ReadAllError {σ : Type} (d : Driver σ) (s : σ) (req : ReadAllRequest) :
    Status → Prop where
  | version : rejectedTag req.api →
      ReadAllError d s req ⟨.Unimplemented, unsupportedMsg req.api⟩
  | connection (e : String) : ¬ rejectedTag req.api → d.conn s = some e →
      ReadAllError d s req ⟨.Unknown, wrapped "failed to connect to database" e⟩
  | query (e : String) : Connected d s req.api → d.query .selectAll s = .error e →
      ReadAllError d s req ⟨.Unknown, wrapped "failed to select from todo" e⟩
  | scan (rows : Rows) (pre : List (Except String Scanned)) (e : String)
      (post : List (Except String Scanned)) :
      Connected d s req.api → d.query .selectAll s = .ok rows →
      rows.pending = pre ++ .error e :: post → (∀ r ∈ pre, decodeRow r ≠ none) →
      ReadAllError d s req
        ⟨.Unknown, wrapped "failed to retrieve field values from todo row" e⟩
  | reminder (rows : Rows) (pre : List (Except String Scanned)) (v : Scanned) (e : String)
      (post : List (Except String Scanned)) :
      Connected d s req.api → d.query .selectAll s = .ok rows →
      rows.pending = pre ++ .ok v :: post → (∀ r ∈ pre, decodeRow r ≠ none) →
      ptypes.TimestampProto v.reminder = .error e →
      ReadAllError d s req ⟨.Unknown, wrapped "reminder field has invalid format" e⟩
  | iteration (rows : Rows) (e : String) : Connected d s req.api →
      d.query .selectAll s = .ok rows → (∀ r ∈ rows.pending, decodeRow r ≠ none) →
      rows.err = some e →
      ReadAllError d s req ⟨.Unknown, wrapped "failed to retrieve data from todo" e⟩

/-- Whether the characters `-> ` occur, in this order and adjacent, in a text. -/
def hasArrow : List Char → Bool
  | [] => false
  | c :: cs => (c == '-' && cs.take 2 == ['>', ' ']) || hasArrow cs

/-- The empty table. -/
def emptyStore : Store := ⟨[], 1, by simp⟩

/-- A table holding one item, with id 1. -/
def milkStore : Store :=
  ⟨[⟨1, "Buy milk", "2%", ⟨1704067200, 0⟩⟩], 2, by simp⟩

/-- A scanned row: "Buy milk", due 2024-01-01T00:00:00Z. -/
def milkRow : Scanned := ⟨1, "Buy milk", "2%", ⟨1704067200, 0⟩⟩

/-- A second scanned row carrying the same id. -/
def oatRow : Scanned := ⟨1, "Buy oat milk", "1l", ⟨1704153600, 500⟩⟩

/-- The wire timestamp of 2024-01-01T00:00:00Z. -/
def newYear : Timestamp := ⟨1704067200, 0⟩

/-- A result set of two rows with the same id. -/
def twoRows : Rows := ⟨[.ok milkRow, .ok oatRow], none⟩

/-- A result set of one row whose iteration ends with an error. -/
def oneRowThenError : Rows := ⟨[.ok milkRow], some "invalid connection"⟩

/-- A driver that connects and answers every query with `rows`. -/
def queryDriver (rows : Rows) : Driver Unit :=
  fixedDriver none (.error "unexpected statement") (.ok rows)

/-- A driver that connects and answers every statement with `res`. -/
def execDriver (res : Result) : Driver Unit :=
  fixedDriver none (.ok res) (.error "unexpected query")

/-! ## The version check -/

theorem utf8ByteSize_go_pos (c : Char) (cs : List Char) :
    0 < String.utf8ByteSize.go (c :: cs) := by
  have := Char.utf8Size_pos c
  simp only [String.utf8ByteSize.go]
  omega

theorem utf8ByteSize_pos_iff (api : String) : api.utf8ByteSize > 0 ↔ api ≠ "" := by
  rcases api with ⟨cs⟩
  cases cs with
  | nil => simp [String.utf8ByteSize, String.utf8ByteSize.go]
  | cons c cs =>
    have h := utf8ByteSize_go_pos c cs
    have hne : (String.mk (c :: cs)) ≠ "" := by
      intro h0
      have := congrArg String.data h0
      simp at this
    simp only [String.utf8ByteSize, gt_iff_lt, h, ne_eq, hne, not_false_eq_true]

theorem checkAPI_eq_none_iff (api : String) :
    checkAPI api = none ↔ (api = "" ∨ api = "v1") := by
  unfold checkAPI
  by_cases h0 : api = ""
  · subst h0
    simp [String.utf8ByteSize, String.utf8ByteSize.go]
  · have hp : api.utf8ByteSize > 0 := (utf8ByteSize_pos_iff api).mpr h0
    by_cases h1 : api = "v1"
    · subst h1
      simp [apiVersion]
    · have h2 : apiVersion ≠ api := fun h => h1 (by rw [← h]; rfl)
      simp [hp, h0, h1, h2]

theorem checkAPI_code (api : String) (st : Status) (h : checkAPI api = some st) :
    st.code = .Unimplemented := by
  unfold checkAPI at h
  split at h
  · split at h
    · cases h
      rfl
    · cases h
  · cases h

/-! ## Rejected and accepted calls, operation by operation -/

theorem Create_rejected {σ : Type} (d : Driver σ) (s : σ) (req : CreateRequest) (st : Status)
    (h : checkAPI req.api = some st) :
    (Create d s req).out = .error st ∧ (Create d s req).db = s ∧ (Create d s req).trace = [] := by
  simp [Create, h]

theorem Read_rejected {σ : Type} (d : Driver σ) (s : σ) (req : ReadRequest) (st : Status)
    (h : checkAPI req.api = some st) :
    (Read d s req).out = .error st ∧ (Read d s req).db = s ∧ (Read d s req).trace = [] := by
  simp [Read, h]

theorem Update_rejected {σ : Type} (d : Driver σ) (s : σ) (req : UpdateRequest) (st : Status)
    (h : checkAPI req.api = some st) :
    (Update d s req).out = .error st ∧ (Update d s req).db = s ∧ (Update d s req).trace = [] := by
  simp [Update, h]

theorem Delete_rejected {σ : Type} (d : Driver σ) (s : σ) (req : DeleteRequest) (st : Status)
    (h : checkAPI req.api = some st) :
    (Delete d s req).out = .error st ∧ (Delete d s req).db = s ∧ (Delete d s req).trace = [] := by
  simp [Delete, h]

theorem ReadAll_rejected {σ : Type} (d : Driver σ) (s : σ) (req : ReadAllRequest) (st : Status)
    (h : checkAPI req.api = some st) :
    (ReadAll d s req).out = .error st ∧ (ReadAll d s req).db = s
      ∧ (ReadAll d s req).trace = [] := by
  simp [ReadAll, h]

theorem connect_code {σ : Type} (d : Driver σ) (s : σ) (st : Status)
    (h : connect d s = .error st) : st.code = .Unknown := by
  unfold connect at h
  split at h
  · cases h
    rfl
  · cases h

theorem Create_accepted {σ : Type} (d : Driver σ) (s : σ) (req : CreateRequest)
    (h : checkAPI req.api = none) : (Create d s req).out.code? ≠ some .Unimplemented := by
  unfold Create
  rw [h]
  dsimp only
  split
  · next err hc => simp [Outcome.code?, connect_code d s err hc]
  · repeat' split
    all_goals simp [Outcome.code?]

theorem Read_accepted {σ : Type} (d : Driver σ) (s : σ) (req : ReadRequest)
    (h : checkAPI req.api = none) : (Read d s req).out.code? ≠ some .Unimplemented := by
  unfold Read
  rw [h]
  dsimp only
  split
  · next err hc => simp [Outcome.code?, connect_code d s err hc]
  · repeat' split
    all_goals simp [Outcome.code?]

theorem Update_accepted {σ : Type} (d : Driver σ) (s : σ) (req : UpdateRequest)
    (h : checkAPI req.api = none) : (Update d s req).out.code? ≠ some .Unimplemented := by
  unfold Update
  rw [h]
  dsimp only
  split
  · next err hc => simp [Outcome.code?, connect_code d s err hc]
  · repeat' split
    all_goals simp [Outcome.code?]

theorem Delete_accepted {σ : Type} (d : Driver σ) (s : σ) (req : DeleteRequest)
    (h : checkAPI req.api = none) : (Delete d s req).out.code? ≠ some .Unimplemented := by
  unfold Delete
  rw [h]
  dsimp only
  split
  · next err hc => simp [Outcome.code?, connect_code d s err hc]
  · repeat' split
    all_goals simp [Outcome.code?]

theorem readAllLoop_code (pending : List (Except String Scanned)) (list : List ToDo)
    (st : Status) (h : readAllLoop pending list = .error st) : st.code = .Unknown := by
  induction pending generalizing list with
  | nil => simp [readAllLoop] at h
  | cons row rest ih =>
    unfold readAllLoop at h
    split at h
    · cases h
      rfl
    · split at h
      · cases h
        rfl
      · exact ih _ h

theorem ReadAll_accepted {σ : Type} (d : Driver σ) (s : σ) (req : ReadAllRequest)
    (h : checkAPI req.api = none) : (ReadAll d s req).out.code? ≠ some .Unimplemented := by
  unfold ReadAll
  rw [h]
  dsimp only
  split
  · next err hc => simp [Outcome.code?, connect_code d s err hc]
  · split
    · simp [Outcome.code?]
    · split
      · next err hl => simp [Outcome.code?, readAllLoop_code _ _ err hl]
      · split <;> simp [Outcome.code?]

theorem rejectedTag_iff (api : String) : rejectedTag api ↔ ∃ st, checkAPI api = some st := by
  have h := checkAPI_eq_none_iff api
  unfold rejectedTag
  constructor
  · intro hr
    cases hc : checkAPI api with
    | none => exact absurd (h.mp hc) (by tauto)
    | some st => exact ⟨st, rfl⟩
  · rintro ⟨st, hst⟩
    by_contra hn
    have : checkAPI api = none := h.mpr (by tauto)
    rw [this] at hst
    cases hst

/-- C1: for each of the five operations and every request, database and driver,
the call fails with code Unimplemented if and only if the api tag is non-empty
and different from "v1"; in that case no driver call is made (no connection is
acquired, no statement is executed) and the database is left as it was.  An
empty tag and the tag "v1" are therefore never turned away by the check. -/
theorem unimplemented_iff_rejected_tag {σ : Type} (d : Driver σ) (s : σ)
    (cr : CreateRequest) (rr : ReadRequest) (ur : UpdateRequest) (dr : DeleteRequest)
    (ar : ReadAllRequest) :
    (((Create d s cr).out.code? = some .Unimplemented ↔ rejectedTag cr.api) ∧
      (rejectedTag cr.api → (Create d s cr).trace = [] ∧ (Create d s cr).db = s)) ∧
    (((Read d s rr).out.code? = some .Unimplemented ↔ rejectedTag rr.api) ∧
      (rejectedTag rr.api → (Read d s rr).trace = [] ∧ (Read d s rr).db = s)) ∧
    (((Update d s ur).out.code? = some .Unimplemented ↔ rejectedTag ur.api) ∧
      (rejectedTag ur.api → (Update d s ur).trace = [] ∧ (Update d s ur).db = s)) ∧
    (((Delete d s dr).out.code? = some .Unimplemented ↔ rejectedTag dr.api) ∧
      (rejectedTag dr.api → (Delete d s dr).trace = [] ∧ (Delete d s dr).db = s)) ∧
    (((ReadAll d s ar).out.code? = some .Unimplemented ↔ rejectedTag ar.api) ∧
      (rejectedTag ar.api → (ReadAll d s ar).trace = [] ∧ (ReadAll d s ar).db = s)) ∧
    ¬ rejectedTag "" ∧ ¬ rejectedTag "v1" := by
  have key : ∀ {α : Type} (api : String) (r : Run σ α),
      (∀ st, checkAPI api = some st → r.out = .error st ∧ r.db = s ∧ r.trace = []) →
      (checkAPI api = none → r.out.code? ≠ some .Unimplemented) →
      ((r.out.code? = some .Unimplemented ↔ rejectedTag api) ∧
        (rejectedTag api → r.trace = [] ∧ r.db = s)) := by
    intro α api r hrej hacc
    refine ⟨⟨fun hc => ?_, fun hr => ?_⟩, fun hr => ?_⟩
    · by_contra hn
      have hnone : checkAPI api = none := by
        cases hq : checkAPI api with
        | none => rfl
        | some st => exact absurd ((rejectedTag_iff api).mpr ⟨st, hq⟩) hn
      exact hacc hnone hc
    · obtain ⟨st, hst⟩ := (rejectedTag_iff api).mp hr
      rw [(hrej st hst).1]
      simp [Outcome.code?, checkAPI_code api st hst]
    · obtain ⟨st, hst⟩ := (rejectedTag_iff api).mp hr
      exact ⟨(hrej st hst).2.2, (hrej st hst).2.1⟩
  refine ⟨key _ _ (Create_rejected d s cr) (Create_accepted d s cr),
    key _ _ (Read_rejected d s rr) (Read_accepted d s rr),
    key _ _ (Update_rejected d s ur) (Update_accepted d s ur),
    key _ _ (Delete_rejected d s dr) (Delete_accepted d s dr),
    key _ _ (ReadAll_rejected d s ar) (ReadAll_accepted d s ar), ?_, ?_⟩
  · simp [rejectedTag]
  · simp [rejectedTag]

theorem checkAPI_of_not_rejected (api : String) (h : ¬ rejectedTag api) :
    checkAPI api = none := by
  cases hc : checkAPI api with
  | none => rfl
  | some st => exact absurd ((rejectedTag_iff api).mpr ⟨st, hc⟩) h

theorem connect_ok {σ : Type} (d : Driver σ) (s : σ) (h : d.conn s = none) :
    connect d s = .ok () := by
  simp [connect, h]

/-! ## Reminder conversion before the statement -/

/-- C4: for every Create or Update request that passes the version check and
obtains a connection, if converting the reminder of its item from the wire
timestamp fails, the call fails with code InvalidArgument, makes no ExecContext
call (no INSERT or UPDATE runs) and leaves the database as it was. -/
theorem unconvertible_reminder_invalid_argument {σ : Type} (d : Driver σ) (s : σ)
    (cr : CreateRequest) (ur : UpdateRequest) (ctd utd : ToDo) (ce ue : String)
    (hcapi : ¬ rejectedTag cr.api) (huapi : ¬ rejectedTag ur.api) (hconn : d.conn s = none)
    (hctd : cr.toDo = some ctd) (hutd : ur.toDo = some utd)
    (hcrem : ptypes.Timestamp ctd.reminder = .error ce)
    (hurem : ptypes.Timestamp utd.reminder = .error ue) :
    ((Create d s cr).out.code? = some .InvalidArgument ∧ noExec (Create d s cr).trace
      ∧ (Create d s cr).db = s) ∧
    ((Update d s ur).out.code? = some .InvalidArgument ∧ noExec (Update d s ur).trace
      ∧ (Update d s ur).db = s) := by
  have hc := checkAPI_of_not_rejected _ hcapi
  have hu := checkAPI_of_not_rejected _ huapi
  have hk := connect_ok d s hconn
  constructor
  · simp [Create, hc, hk, hctd, hcrem, Outcome.code?, noExec]
  · simp [Update, hu, hk, hutd, hurem, Outcome.code?, noExec]

/-- Witness for C4: a Create with a nil reminder and an Update with negative nanos,
both against a store holding one row. -/
theorem unconvertible_reminder_invalid_argument_witness :
    ((Create storeDriver milkStore ⟨"v1", some ⟨0, "a", "b", none⟩⟩).out.code?
        = some .InvalidArgument
      ∧ noExec (Create storeDriver milkStore ⟨"v1", some ⟨0, "a", "b", none⟩⟩).trace
      ∧ (Create storeDriver milkStore ⟨"v1", some ⟨0, "a", "b", none⟩⟩).db = milkStore) ∧
    ((Update storeDriver milkStore ⟨"", some ⟨1, "a", "b", some ⟨0, -1⟩⟩⟩).out.code?
        = some .InvalidArgument
      ∧ noExec (Update storeDriver milkStore ⟨"", some ⟨1, "a", "b", some ⟨0, -1⟩⟩⟩).trace
      ∧ (Update storeDriver milkStore ⟨"", some ⟨1, "a", "b", some ⟨0, -1⟩⟩⟩).db = milkStore) :=
  unconvertible_reminder_invalid_argument storeDriver milkStore
    ⟨"v1", some ⟨0, "a", "b", none⟩⟩ ⟨"", some ⟨1, "a", "b", some ⟨0, -1⟩⟩⟩
    ⟨0, "a", "b", none⟩ ⟨1, "a", "b", some ⟨0, -1⟩⟩
    "timestamp: nil Timestamp" "timestamp: nanos:-1 : nanos not in range [0, 1e9)"
    (by decide) (by decide) rfl rfl rfl rfl rfl

/-! ## Read: one row, several rows -/

theorem Read_first_row {σ : Type} (d : Driver σ) (s : σ) (req : ReadRequest) (rows : Rows)
    (v : Scanned) (rest : List (Except String Scanned)) (ts : Timestamp)
    (hapi : ¬ rejectedTag req.api) (hconn : d.conn s = none)
    (hq : d.query (.selectById req.id) s = .ok rows) (hrows : rows.pending = .ok v :: rest)
    (hts : ptypes.TimestampProto v.reminder = .ok ts) :
    (Read d s req).out =
      match rest with
      | [] => .ok ⟨apiVersion, v.toToDo ts⟩
      | _ :: _ => .error ⟨.Unknown, multipleMsg req.id⟩ := by
  have hc := checkAPI_of_not_rejected _ hapi
  have hk := connect_ok d s hconn
  cases rest with
  | nil => simp [Read, hc, hk, hq, Rows.next, hrows, hts]
  | cons r rest => simp [Read, hc, hk, hq, Rows.next, hrows, hts]

/-- C5: for every Read request with an accepted api tag whose query yields rows
the first of which decodes and converts: with two or more rows Read fails with
code Unknown and returns no item; with exactly that one row it succeeds with the
item of that row. -/
theorem read_multiple_rows_unknown {σ : Type} (d : Driver σ) (s : σ) (req : ReadRequest)
    (rows : Rows) (v : Scanned) (rest : List (Except String Scanned)) (ts : Timestamp)
    (hapi : ¬ rejectedTag req.api) (hconn : d.conn s = none)
    (hq : d.query (.selectById req.id) s = .ok rows) (hrows : rows.pending = .ok v :: rest)
    (hts : ptypes.TimestampProto v.reminder = .ok ts) :
    (2 ≤ rows.pending.length →
      (Read d s req).out.code? = some .Unknown ∧ (Read d s req).out.resp? = none) ∧
    (rows.pending.length = 1 →
      (Read d s req).out = .ok ⟨"v1", ⟨v.id, v.title, v.description, some ts⟩⟩) := by
  have h := Read_first_row d s req rows v rest ts hapi hconn hq hrows hts
  rw [hrows]
  cases rest with
  | nil =>
    refine ⟨fun h2 => ?_, fun _ => ?_⟩
    · simp at h2
    · rw [h]
      rfl
  | cons r rest =>
    refine ⟨fun _ => ?_, fun h1 => ?_⟩
    · rw [h]
      simp [Outcome.code?, Outcome.resp?]
    · simp at h1

/-- Witness for C5: a query that yields two rows with the same id. -/
theorem read_multiple_rows_unknown_witness :
    2 ≤ twoRows.pending.length ∧
      (Read (queryDriver twoRows) () ⟨"v1", 1⟩).out.code? = some .Unknown ∧
      (Read (queryDriver twoRows) () ⟨"v1", 1⟩).out.resp? = none :=
  ⟨by decide,
    (read_multiple_rows_unknown (queryDriver twoRows) () ⟨"v1", 1⟩ twoRows milkRow [.ok oatRow]
      newYear (by decide) rfl rfl rfl rfl).1 (by decide)⟩

/-! ## Update and Delete: the affected-row count -/

/-- C6: for every Update request whose statement executes and whose affected-row
count n is read successfully, the call fails with NotFound exactly when n = 0,
and otherwise succeeds with api = "v1" and updatedCount equal to n; likewise,
and independently, for every Delete request and its deletedCount. -/
theorem affected_count_decides {σ : Type} (d : Driver σ) :
    (∀ (s su : σ) (ur : UpdateRequest) (td : ToDo) (t : Time) (res : Result) (n : Int),
      ¬ rejectedTag ur.api → d.conn s = none → ur.toDo = some td →
      ptypes.Timestamp td.reminder = .ok t →
      d.exec (.update td.title td.description t td.id) s = (.ok res, su) →
      res.rowsAffected = .ok n →
      ((Update d s ur).out.code? = some .NotFound ↔ n = 0) ∧
      (n ≠ 0 → (Update d s ur).out = .ok ⟨"v1", n⟩)) ∧
    (∀ (s sd : σ) (dr : DeleteRequest) (res : Result) (n : Int),
      ¬ rejectedTag dr.api → d.conn s = none →
      d.exec (.delete dr.id) s = (.ok res, sd) →
      res.rowsAffected = .ok n →
      ((Delete d s dr).out.code? = some .NotFound ↔ n = 0) ∧
      (n ≠ 0 → (Delete d s dr).out = .ok ⟨"v1", n⟩)) := by
  constructor
  · intro s su ur td t res n hapi hconn htd hrem hexec hn
    have hu := checkAPI_of_not_rejected _ hapi
    have hk := connect_ok d s hconn
    by_cases h0 : n = 0
    · simp [Update, hu, hk, htd, hrem, hexec, hn, h0, Outcome.code?]
    · simp [Update, hu, hk, htd, hrem, hexec, hn, h0, Outcome.code?, apiVersion]
  · intro s sd dr res n hapi hconn hexec hn
    have hd := checkAPI_of_not_rejected _ hapi
    have hk := connect_ok d s hconn
    by_cases h0 : n = 0
    · simp [Delete, hd, hk, hexec, hn, h0, Outcome.code?]
    · simp [Delete, hd, hk, hexec, hn, h0, Outcome.code?, apiVersion]

/-- Witness for C6: an Update with affected count 2 and a Delete with affected
count 0. -/
theorem affected_count_decides_witness :
    (Update (execDriver ⟨.ok 0, .ok 2⟩) () ⟨"v1", some ⟨9, "a", "b", some newYear⟩⟩).out
        = .ok ⟨"v1", 2⟩ ∧
      (Delete (execDriver ⟨.ok 0, .ok 0⟩) () ⟨"", 9⟩).out.code? = some .NotFound :=
  ⟨((affected_count_decides (execDriver ⟨.ok 0, .ok 2⟩)).1 () ()
      ⟨"v1", some ⟨9, "a", "b", some newYear⟩⟩ ⟨9, "a", "b", some newYear⟩
      ⟨1704067200, 0⟩ ⟨.ok 0, .ok 2⟩ 2 (by decide) rfl rfl rfl rfl rfl).2 (by decide),
    ((affected_count_decides (execDriver ⟨.ok 0, .ok 0⟩)).2 () () ⟨"", 9⟩ ⟨.ok 0, .ok 0⟩ 0
      (by decide) rfl rfl rfl).1.mpr rfl⟩

/-! ## ReadAll: all rows or none -/

theorem readAllLoop_ok (pending : List (Except String Scanned)) (list items : List ToDo)
    (h : pending.map decodeRow = items.map some) :
    readAllLoop pending list = .ok (list ++ items) := by
  induction pending generalizing list items with
  | nil =>
    cases items with
    | nil => simp [readAllLoop]
    | cons i items => simp at h
  | cons row rest ih =>
    cases items with
    | nil => simp at h
    | cons i items =>
      simp only [List.map_cons, List.cons.injEq] at h
      obtain ⟨hrow, hrest⟩ := h
      unfold readAllLoop
      unfold decodeRow at hrow
      split
      · simp at hrow
      · split
        · next hts => simp [hts] at hrow
        · next hts =>
          simp only [hts, Option.some.injEq] at hrow
          rw [ih _ _ hrest, hrow]
          simp

theorem readAllLoop_error (pending : List (Except String Scanned)) (list : List ToDo)
    (h : ∃ r ∈ pending, decodeRow r = none) :
    ∃ st, readAllLoop pending list = .error st ∧ st.code = .Unknown := by
  induction pending generalizing list with
  | nil => simp at h
  | cons row rest ih =>
    unfold readAllLoop
    split
    · exact ⟨_, rfl, rfl⟩
    · split
      · exact ⟨_, rfl, rfl⟩
      · next v ts hts =>
        obtain ⟨r, hr, hnone⟩ := h
        rcases List.mem_cons.mp hr with h1 | h1
        · subst h1
          simp [decodeRow, hts] at hnone
        · exact ih _ ⟨r, h1, hnone⟩

theorem all_decode (pending : List (Except String Scanned))
    (h : ∀ r ∈ pending, decodeRow r ≠ none) :
    ∃ items : List ToDo, pending.map decodeRow = items.map some := by
  induction pending with
  | nil => exact ⟨[], rfl⟩
  | cons row rest ih =>
    obtain ⟨items, hi⟩ := ih (fun r hr => h r (List.mem_cons_of_mem _ hr))
    cases hrow : decodeRow row with
    | none => exact absurd hrow (h row (List.mem_cons_self _ _))
    | some i => exact ⟨i :: items, by simp [hrow, hi]⟩

/-- C7: for every sequence of rows the query of ReadAll produces: if every row
decodes and converts and the iteration reports no error, ReadAll succeeds with a
non-nil list holding exactly one item per row, in row order; if some row fails to
decode or convert, or the iteration reports an error, ReadAll fails with code
Unknown and returns no response, so never a part of the list; for no rows and no
iteration error it succeeds with the empty, non-nil list. -/
theorem readAll_all_or_nothing {σ : Type} (d : Driver σ) (s : σ) (req : ReadAllRequest)
    (rows : Rows) (hapi : ¬ rejectedTag req.api) (hconn : d.conn s = none)
    (hq : d.query .selectAll s = .ok rows) :
    ((∀ r ∈ rows.pending, decodeRow r ≠ none) → rows.err = none →
      ∃ items, (ReadAll d s req).out = .ok ⟨"v1", some items⟩ ∧
        rows.pending.map decodeRow = items.map some ∧ items.length = rows.pending.length) ∧
    ((∃ r ∈ rows.pending, decodeRow r = none) ∨ rows.err ≠ none →
      (ReadAll d s req).out.code? = some .Unknown ∧ (ReadAll d s req).out.resp? = none) ∧
    (rows.pending = [] → rows.err = none → (ReadAll d s req).out = .ok ⟨"v1", some []⟩) := by
  have hc := checkAPI_of_not_rejected _ hapi
  have hk := connect_ok d s hconn
  refine ⟨fun hall herr => ?_, fun hbad => ?_, fun hnil herr => ?_⟩
  · obtain ⟨items, hi⟩ := all_decode rows.pending hall
    refine ⟨items, ?_, hi, ?_⟩
    · simp [ReadAll, hc, hk, hq, readAllLoop_ok _ [] items hi, herr, apiVersion]
    · have := congrArg List.length hi
      simpa using this.symm
  · by_cases hex : ∃ r ∈ rows.pending, decodeRow r = none
    · obtain ⟨st, hst, hcode⟩ := readAllLoop_error rows.pending [] hex
      simp [ReadAll, hc, hk, hq, hst, Outcome.code?, Outcome.resp?, hcode]
    · have hall : ∀ r ∈ rows.pending, decodeRow r ≠ none := by
        intro r hr hn
        exact hex ⟨r, hr, hn⟩
      obtain ⟨items, hi⟩ := all_decode rows.pending hall
      have herr : rows.err ≠ none := by
        rcases hbad with h | h
        · exact absurd h hex
        · exact h
      cases he : rows.err with
      | none => exact absurd he herr
      | some e =>
        simp [ReadAll, hc, hk, hq, readAllLoop_ok _ [] items hi, he, Outcome.code?,
          Outcome.resp?]
  · simp [ReadAll, hc, hk, hq, hnil, readAllLoop, herr, apiVersion]

/-- Witness for C7: a query without rows, and a query whose iteration ends with an
error after one row. -/
theorem readAll_all_or_nothing_witness :
    (ReadAll (queryDriver ⟨[], none⟩) () ⟨"v1"⟩).out = .ok ⟨"v1", some []⟩ ∧
      (ReadAll (queryDriver oneRowThenError) () ⟨""⟩).out.code? = some .Unknown ∧
      (ReadAll (queryDriver oneRowThenError) () ⟨""⟩).out.resp? = none :=
  ⟨(readAll_all_or_nothing (queryDriver ⟨[], none⟩) () ⟨"v1"⟩ ⟨[], none⟩
      (by decide) rfl rfl).2.2 rfl rfl,
    (readAll_all_or_nothing (queryDriver oneRowThenError) () ⟨""⟩ oneRowThenError
      (by decide) rfl rfl).2.1 (Or.inr (by simp [oneRowThenError]))⟩

/-! ## A request without an item -/

/-- C9 (evaluation at the failing input): against the modelled store, a Create
request and an Update request that carry an accepted tag and no item (nil ToDo)
do not return: after the connection is obtained the handler panics on the nil
dereference, and no statement has been executed. -/
theorem nil_item_panics :
    (Create storeDriver emptyStore ⟨"v1", none⟩).out = .panic ∧
    (Update storeDriver emptyStore ⟨"v1", none⟩).out = .panic ∧
    (Create storeDriver emptyStore ⟨"v1", none⟩).trace = [.conn, .close] ∧
    (Update storeDriver emptyStore ⟨"v1", none⟩).trace = [.conn, .close] := by
  refine ⟨rfl, rfl, rfl, rfl⟩

/-! ## Read and the iteration error -/

/-- C10: Read consults the iteration error only when the first advance yields no
row: if the query yields exactly one row, which decodes and converts, Read
succeeds with the item of that row whatever the iteration error is, whereas
ReadAll, given the same rows ending in an iteration error, fails with Unknown. -/
theorem read_ignores_late_iteration_error {σ : Type} (d : Driver σ) (s : σ)
    (req : ReadRequest) (areq : ReadAllRequest) (rows : Rows) (v : Scanned) (ts : Timestamp)
    (e : String)
    (hapi : ¬ rejectedTag req.api) (haapi : ¬ rejectedTag areq.api) (hconn : d.conn s = none)
    (hq : d.query (.selectById req.id) s = .ok rows) (hqa : d.query .selectAll s = .ok rows)
    (hrows : rows.pending = [.ok v]) (hts : ptypes.TimestampProto v.reminder = .ok ts)
    (herr : rows.err = some e) :
    (Read d s req).out = .ok ⟨"v1", ⟨v.id, v.title, v.description, some ts⟩⟩ ∧
    (ReadAll d s areq).out
      = .error ⟨.Unknown, "failed to retrieve data from todo-> " ++ e⟩ := by
  have hc := checkAPI_of_not_rejected _ hapi
  have hca := checkAPI_of_not_rejected _ haapi
  have hk := connect_ok d s hconn
  constructor
  · rw [Read_first_row d s req rows v [] ts hapi hconn hq hrows hts]
    rfl
  · simp [ReadAll, hca, hk, hqa, hrows, readAllLoop, hts, herr]

/-- Witness for C10: one row followed by the iteration error "invalid connection". -/
theorem read_ignores_late_iteration_error_witness :
    (Read (queryDriver oneRowThenError) () ⟨"v1", 1⟩).out
        = .ok ⟨"v1", ⟨1, "Buy milk", "2%", some newYear⟩⟩ ∧
      (ReadAll (queryDriver oneRowThenError) () ⟨"v1"⟩).out
        = .error ⟨.Unknown, "failed to retrieve data from todo-> " ++ "invalid connection"⟩ :=
  read_ignores_late_iteration_error (queryDriver oneRowThenError) () ⟨"v1", 1⟩ ⟨"v1"⟩
    oneRowThenError milkRow newYear "invalid connection" (by decide) (by decide) rfl rfl rfl
    rfl rfl rfl

/-! ## Ids that are not there -/

theorem granular_store_missing_id (g : Time → Time) (st : Store) (id : Int)
    (h : ∀ r ∈ st.rows, r.id ≠ id) :
    (granularDriver g).conn st = none ∧
    (granularDriver g).query (.selectById id) st = .ok ⟨[], none⟩ ∧
    (∀ (t d : String) (r : Time),
      (granularDriver g).exec (.update t d r id) st
        = (.ok ⟨.ok 0, .ok 0⟩, st.update t d (g r) id)) ∧
    (granularDriver g).exec (.delete id) st = (.ok ⟨.ok 0, .ok 0⟩, st.delete id) := by
  have hm : st.matching id = [] := by
    unfold Store.matching
    rw [List.filter_eq_nil_iff]
    intro r hr
    simpa using h r hr
  refine ⟨rfl, ?_, ?_, ?_⟩
  · show Except.ok _ = _
    rw [hm]
    rfl
  · intro t d r
    show (Except.ok _, _) = _
    rw [hm]
    rfl
  · show (Except.ok _, _) = _
    rw [hm]
    rfl

theorem matching_eq_nil (st : Store) (id : Int) (h : ∀ r ∈ st.rows, r.id ≠ id) :
    st.matching id = [] := by
  unfold Store.matching
  rw [List.filter_eq_nil_iff]
  intro r hr
  simpa using h r hr

/-- C2 (counterexample): the table is empty, so no row has id 7, and the tag
"v1" is accepted; an Update of id 7 whose item carries no reminder fails with
InvalidArgument, not with NotFound. -/
theorem update_missing_id_invalid_argument :
    ¬ rejectedTag "v1" ∧ (∀ r ∈ emptyStore.rows, r.id ≠ 7) ∧
    (Update storeDriver emptyStore ⟨"v1", some ⟨7, "Buy milk", "2%", none⟩⟩).out.code?
      = some .InvalidArgument ∧
    (Update storeDriver emptyStore ⟨"v1", some ⟨7, "Buy milk", "2%", none⟩⟩).out.code?
      ≠ some .NotFound := by
  refine ⟨by decide, ?_, rfl, ?_⟩
  · intro r hr
    simp [emptyStore] at hr
  · decide

/-- C2 (amended): for every request with an accepted api tag whose connection
is obtained, Read fails with code NotFound, naming the requested id, when its
query executes and delivers no row and no iteration error; Update does when its
request carries an item whose reminder converts, its statement executes and the
affected-row count is read as 0; Delete does when its statement executes and the
affected-row count is read as 0. -/
theorem missing_id_not_found {σ : Type} (d : Driver σ) :
    (∀ (s : σ) (rr : ReadRequest) (rows : Rows),
      ¬ rejectedTag rr.api → d.conn s = none →
      d.query (.selectById rr.id) s = .ok rows → rows.pending = [] → rows.err = none →
      (Read d s rr).out = .error ⟨.NotFound, notFoundMsg rr.id⟩) ∧
    (∀ (s su : σ) (ur : UpdateRequest) (td : ToDo) (t : Time) (res : Result),
      ¬ rejectedTag ur.api → d.conn s = none → ur.toDo = some td →
      ptypes.Timestamp td.reminder = .ok t →
      d.exec (.update td.title td.description t td.id) s = (.ok res, su) →
      res.rowsAffected = .ok 0 →
      (Update d s ur).out = .error ⟨.NotFound, notFoundMsg td.id⟩) ∧
    (∀ (s sd : σ) (dr : DeleteRequest) (res : Result),
      ¬ rejectedTag dr.api → d.conn s = none →
      d.exec (.delete dr.id) s = (.ok res, sd) → res.rowsAffected = .ok 0 →
      (Delete d s dr).out = .error ⟨.NotFound, notFoundMsg dr.id⟩) := by
  refine ⟨?_, ?_, ?_⟩
  · intro s rr rows hapi hconn hq hp he
    simp [Read, checkAPI_of_not_rejected _ hapi, connect_ok d s hconn, hq, Rows.next, hp, he]
  · intro s su ur td t res hapi hconn htd hrem hexec hn
    simp [Update, checkAPI_of_not_rejected _ hapi, connect_ok d s hconn, htd, hrem, hexec, hn]
  · intro s sd dr res hapi hconn hexec hn
    simp [Delete, checkAPI_of_not_rejected _ hapi, connect_ok d s hconn, hexec, hn]

/-- Witness for C2 (amended): ids 2, 3 and 0 against a store whose only row has
id 1. -/
theorem missing_id_not_found_witness :
    (Read storeDriver milkStore ⟨"v1", 2⟩).out = .error ⟨.NotFound, notFoundMsg 2⟩ ∧
    (Update storeDriver milkStore ⟨"", some ⟨3, "a", "b", some newYear⟩⟩).out
      = .error ⟨.NotFound, notFoundMsg 3⟩ ∧
    (Delete storeDriver milkStore ⟨"v1", 0⟩).out = .error ⟨.NotFound, notFoundMsg 0⟩ :=
  ⟨(missing_id_not_found storeDriver).1 milkStore ⟨"v1", 2⟩ ⟨[], none⟩
      (by decide) rfl rfl rfl rfl,
    (missing_id_not_found storeDriver).2.1 milkStore
      (milkStore.update "a" "b" ⟨1704067200, 0⟩ 3) ⟨"", some ⟨3, "a", "b", some newYear⟩⟩
      ⟨3, "a", "b", some newYear⟩ ⟨1704067200, 0⟩ ⟨.ok 0, .ok 0⟩ (by decide) rfl rfl rfl rfl rfl,
    (missing_id_not_found storeDriver).2.2 milkStore (milkStore.delete 0) ⟨"v1", 0⟩
      ⟨.ok 0, .ok 0⟩ (by decide) rfl rfl rfl⟩

/-! ## Create, then Read -/

theorem timestamp_round_trip (r : Option Timestamp) (t : Time)
    (h : ptypes.Timestamp r = .ok t) :
    ∃ ts, r = some ts ∧ t = ⟨ts.seconds, ts.nanos⟩ ∧ ptypes.TimestampProto t = .ok ts := by
  cases r with
  | none => simp [ptypes.Timestamp, validateTimestamp] at h
  | some ts =>
    refine ⟨ts, rfl, ?_⟩
    unfold ptypes.Timestamp at h
    cases hv : validateTimestamp (some ts) with
    | some e => simp [hv] at h
    | none =>
      simp only [hv, Except.ok.injEq] at h
      have hn : ¬ (ts.nanos < 0 ∨ ts.nanos ≥ 1000000000) := by
        intro hbad
        unfold validateTimestamp at hv
        simp only at hv
        split at hv
        · cases hv
        · split at hv
          · cases hv
          · cases hv
      have ht : t = ⟨ts.seconds, ts.nanos⟩ := by
        rw [← h]
        unfold Time.unix
        rw [if_neg hn]
      refine ⟨ht, ?_⟩
      subst ht
      have hsame : (⟨ts.seconds, ts.nanos⟩ : Timestamp) = ts := rfl
      simp only [ptypes.TimestampProto, hsame, hv]

theorem matching_insert (st : Store) (title description : String) (reminder : Time) :
    (st.insert title description reminder).matching st.autoInc
      = [⟨st.autoInc, title, description, reminder⟩] := by
  have hnil : st.matching st.autoInc = [] := by
    apply matching_eq_nil
    intro r hr
    have := st.fresh r hr
    omega
  unfold Store.matching at hnil ⊢
  simp [Store.insert, List.filter_append, hnil]

theorem Create_ok {σ : Type} (d : Driver σ) (s : σ) (req : CreateRequest)
    (resp : CreateResponse) (h : (Create d s req).out = .ok resp) :
    ∃ td t res, ¬ rejectedTag req.api ∧ d.conn s = none ∧ req.toDo = some td ∧
      ptypes.Timestamp td.reminder = .ok t ∧
      d.exec (.insert td.title td.description t) s = (.ok res, (Create d s req).db) ∧
      res.lastInsertId = .ok resp.id ∧ resp.api = "v1" := by
  by_cases hrej : rejectedTag req.api
  · obtain ⟨st0, hst0⟩ := (rejectedTag_iff _).mp hrej
    rw [(Create_rejected d s req _ hst0).1] at h
    cases h
  · have hc := checkAPI_of_not_rejected _ hrej
    cases hconn : d.conn s with
    | some e => simp [Create, hc, connect, hconn] at h
    | none =>
      have hk := connect_ok d s hconn
      cases htd : req.toDo with
      | none => simp [Create, hc, hk, htd] at h
      | some td =>
        cases hrem : ptypes.Timestamp td.reminder with
        | error e => simp [Create, hc, hk, htd, hrem] at h
        | ok t =>
          rcases hexec : d.exec (.insert td.title td.description t) s with ⟨r, s1⟩
          cases r with
          | error e => simp [Create, hc, hk, htd, hrem, hexec] at h
          | ok res =>
            cases hl : res.lastInsertId with
            | error e => simp [Create, hc, hk, htd, hrem, hexec, hl] at h
            | ok id =>
              have hrun : Create d s req
                  = ⟨.ok ⟨apiVersion, id⟩, s1, [.conn, .exec (.insert td.title td.description t),
                      .close]⟩ := by
                simp [Create, hc, hk, htd, hrem, hexec, hl]
              rw [hrun] at h
              simp only [Outcome.ok.injEq] at h
              subst h
              refine ⟨td, t, res, hrej, rfl, rfl, hrem, ?_, hl, rfl⟩
              rw [hrun]
              exact hexec

theorem granular_store_round_trip (g : Time → Time) (st : Store) (req : CreateRequest)
    (td : ToDo) (t : Time) (ts : Timestamp) (api : String)
    (hapi : ¬ rejectedTag req.api) (htd : req.toDo = some td)
    (hrem : ptypes.Timestamp td.reminder = .ok t)
    (hback : ptypes.TimestampProto (g t) = .ok ts) (hrapi : ¬ rejectedTag api) :
    (Create (granularDriver g) st req).out = .ok ⟨"v1", st.autoInc⟩ ∧
    (Read (granularDriver g) (Create (granularDriver g) st req).db ⟨api, st.autoInc⟩).out
      = .ok ⟨"v1", ⟨st.autoInc, td.title, td.description, some ts⟩⟩ := by
  have hc := checkAPI_of_not_rejected _ hapi
  have hr := checkAPI_of_not_rejected _ hrapi
  have hins : (granularDriver g).exec (.insert td.title td.description t) st
      = (.ok ⟨.ok st.autoInc, .ok 1⟩, st.insert td.title td.description (g t)) := rfl
  have hsel : ∀ (st1 : Store) (id : Int), (granularDriver g).query (.selectById id) st1
      = .ok ⟨(st1.matching id).map (fun r => .ok r.scanned), none⟩ := fun _ _ => rfl
  have hrun : Create (granularDriver g) st req
      = ⟨.ok ⟨apiVersion, st.autoInc⟩, st.insert td.title td.description (g t),
          [.conn, .exec (.insert td.title td.description t), .close]⟩ := by
    simp [Create, hc, connect_ok (granularDriver g) st rfl, htd, hrem, hins]
  rw [hrun]
  constructor
  · rfl
  · simp [Read, hr, connect_ok (granularDriver g) _ rfl, hsel, matching_insert,
      Rows.next, Row.scanned, hback, Scanned.toToDo, apiVersion]

/-- C3 (counterexample): against a store whose temporal column keeps whole
seconds, a Create with tag "v1" and the convertible reminder 1704067200 s + 500 ns
succeeds and returns id 1, and the Read of id 1 on the store Create left
succeeds with a reminder of 1704067200 s + 0 ns, which is not the Create input. -/
theorem whole_second_store_changes_reminder :
    ¬ rejectedTag "v1" ∧
    ptypes.Timestamp (some ⟨1704067200, 500⟩) = .ok ⟨1704067200, 500⟩ ∧
    (Create (granularDriver wholeSeconds) emptyStore
        ⟨"v1", some ⟨0, "Buy milk", "2%", some ⟨1704067200, 500⟩⟩⟩).out = .ok ⟨"v1", 1⟩ ∧
    (Read (granularDriver wholeSeconds)
        (Create (granularDriver wholeSeconds) emptyStore
          ⟨"v1", some ⟨0, "Buy milk", "2%", some ⟨1704067200, 500⟩⟩⟩).db ⟨"v1", 1⟩).out
      = .ok ⟨"v1", ⟨1, "Buy milk", "2%", some ⟨1704067200, 0⟩⟩⟩ ∧
    (some ⟨1704067200, 0⟩ : Option Timestamp) ≠ some ⟨1704067200, 500⟩ := by
  refine ⟨by decide, rfl, rfl, rfl, by decide⟩

/-- C3 (amended): for every Create request whose item has a convertible reminder
and which succeeds and returns id: Create has passed the title, the description
and the converted reminder of the item to the INSERT and returns the id the
store reported; converting that time value back gives the reminder of the
request unchanged; and a Read of id with an accepted api tag that obtains its
connection and whose query delivers exactly one row succeeds with the id, title
and description of that row and its time value converted to a wire timestamp.
Hence the item read is the Create input under the returned id whenever the store
delivers the row as it was inserted. -/
theorem create_read_round_trip {σ : Type} (d : Driver σ) (s : σ) (req : CreateRequest)
    (td : ToDo) (t : Time) (resp : CreateResponse)
    (htd : req.toDo = some td) (hrem : ptypes.Timestamp td.reminder = .ok t)
    (hok : (Create d s req).out = .ok resp) :
    (∃ res, d.exec (.insert td.title td.description t) s = (.ok res, (Create d s req).db) ∧
      res.lastInsertId = .ok resp.id) ∧
    (ptypes.TimestampProto t).toOption = td.reminder ∧
    (∀ (s2 : σ) (api : String) (rows : Rows) (v : Scanned),
      ¬ rejectedTag api → d.conn s2 = none →
      d.query (.selectById resp.id) s2 = .ok rows → rows.pending = [.ok v] →
      (∀ ts, ptypes.TimestampProto v.reminder = .ok ts →
        (Read d s2 ⟨api, resp.id⟩).out
          = .ok ⟨"v1", ⟨v.id, v.title, v.description, some ts⟩⟩) ∧
      (v = ⟨resp.id, td.title, td.description, t⟩ →
        (Read d s2 ⟨api, resp.id⟩).out
          = .ok ⟨"v1", ⟨resp.id, td.title, td.description, td.reminder⟩⟩)) := by
  obtain ⟨td1, t1, res, _, _, htd1, hrem1, hexec, hl, _⟩ := Create_ok d s req resp hok
  rw [htd] at htd1
  cases htd1
  rw [hrem] at hrem1
  cases hrem1
  obtain ⟨ts0, hts0, _, hback⟩ := timestamp_round_trip td.reminder t hrem
  refine ⟨⟨res, hexec, hl⟩, ?_, ?_⟩
  · rw [hback, hts0]
    rfl
  · intro s2 api rows v hapi hconn hq hrows
    have hread : ∀ ts, ptypes.TimestampProto v.reminder = .ok ts →
        (Read d s2 ⟨api, resp.id⟩).out
          = .ok ⟨"v1", ⟨v.id, v.title, v.description, some ts⟩⟩ := by
      intro ts hts
      rw [Read_first_row d s2 ⟨api, resp.id⟩ rows v [] ts hapi hconn hq hrows hts]
      rfl
    refine ⟨hread, ?_⟩
    intro hv
    subst hv
    rw [hread ts0 hback, hts0]

/-- Witness for C3 (amended): an item created in a store that holds one row and
keeps time values as given gets id 2 and is read back unchanged. -/
theorem create_read_round_trip_witness :
    (Read storeDriver
        (Create storeDriver milkStore ⟨"v1", some ⟨0, "Walk", "park", some newYear⟩⟩).db
        ⟨"", 2⟩).out = .ok ⟨"v1", ⟨2, "Walk", "park", some newYear⟩⟩ :=
  ((create_read_round_trip storeDriver milkStore
      ⟨"v1", some ⟨0, "Walk", "park", some newYear⟩⟩ ⟨0, "Walk", "park", some newYear⟩
      ⟨1704067200, 0⟩ ⟨"v1", 2⟩ rfl rfl rfl).2.2
    (Create storeDriver milkStore ⟨"v1", some ⟨0, "Walk", "park", some newYear⟩⟩).db ""
    ⟨[.ok ⟨2, "Walk", "park", ⟨1704067200, 0⟩⟩], none⟩ ⟨2, "Walk", "park", ⟨1704067200, 0⟩⟩
    (by decide) rfl rfl rfl).2 rfl

/-! ## Error messages -/

theorem hasArrow_append (a b : List Char) : hasArrow (a ++ '-' :: '>' :: ' ' :: b) = true := by
  induction a with
  | nil => simp [hasArrow]
  | cons c cs ih => simp [hasArrow, ih]

theorem hasArrow_of_wrapped (cause e : String) :
    hasArrow (cause ++ "-> " ++ e).data = true := by
  have h : (cause ++ "-> " ++ e).data = cause.data ++ '-' :: '>' :: ' ' :: e.data := by
    simp [String.data_append]
  rw [h]
  exact hasArrow_append _ _

/-- C8 (counterexample): a Create request with tag "v2" fails with the message
"unsupported API version: service implements API version 'v1', but asked for
'v2'", which is not of the form cause ++ "-> " ++ underlying error text for any
cause and text. -/
theorem version_error_is_not_wrapped :
    (Create storeDriver emptyStore ⟨"v2", none⟩).out.message?
      = some "unsupported API version: service implements API version 'v1', but asked for 'v2'" ∧
    ¬ ∃ cause e : String,
      "unsupported API version: service implements API version 'v1', but asked for 'v2'"
        = cause ++ "-> " ++ e := by
  constructor
  · rfl
  · rintro ⟨cause, e, h⟩
    have h1 := hasArrow_of_wrapped cause e
    rw [← h] at h1
    revert h1
    decide

theorem checkAPI_some (api : String) (st : Status) (h : checkAPI api = some st) :
    st = ⟨.Unimplemented, unsupportedMsg api⟩ := by
  unfold checkAPI at h
  split at h
  · split at h
    · cases h
      rfl
    · cases h
  · cases h

theorem wrapped_connect (e : String) :
    "failed to connect to database-> " ++ e = wrapped "failed to connect to database" e := rfl

theorem wrapped_reminder (e : String) :
    "reminder field has invalid format-> " ++ e
      = wrapped "reminder field has invalid format" e := rfl

theorem wrapped_insert (e : String) :
    "failed to insert into todo-> " ++ e = wrapped "failed to insert into todo" e := rfl

theorem wrapped_lastInsertId (e : String) :
    "failed to retrieve id for created todo-> " ++ e
      = wrapped "failed to retrieve id for created todo" e := rfl

theorem wrapped_select (e : String) :
    "failed to select from todo-> " ++ e = wrapped "failed to select from todo" e := rfl

theorem wrapped_iteration (e : String) :
    "failed to retrieve data from todo-> " ++ e
      = wrapped "failed to retrieve data from todo" e := rfl

theorem wrapped_scan (e : String) :
    "failed to retrieve field values from todo row-> " ++ e
      = wrapped "failed to retrieve field values from todo row" e := rfl

theorem wrapped_update (e : String) :
    "failed to update todo-> " ++ e = wrapped "failed to update todo" e := rfl

theorem wrapped_rowsAffected (e : String) :
    "failed to retrieve rows affected value-> " ++ e
      = wrapped "failed to retrieve rows affected value" e := rfl

theorem wrapped_delete (e : String) :
    "failed to delete todo-> " ++ e = wrapped "failed to delete todo" e := rfl

theorem Create_error_iff {σ : Type} (d : Driver σ) (s : σ) (req : CreateRequest)
    (st : Status) : (Create d s req).out = .error st ↔ CreateError d s req st := by
  by_cases hrej : rejectedTag req.api
  · obtain ⟨st0, hst0⟩ := (rejectedTag_iff _).mp hrej
    have hs := checkAPI_some _ _ hst0
    subst hs
    rw [(Create_rejected d s req _ hst0).1]
    constructor
    · intro h
      cases h
      exact .version hrej
    · intro h
      cases h <;> simp_all [Connected]
  · have hc := checkAPI_of_not_rejected _ hrej
    cases hconn : d.conn s with
    | some e =>
      have hout : (Create d s req).out
          = .error ⟨.Unknown, wrapped "failed to connect to database" e⟩ := by
        simp [Create, hc, connect, hconn, wrapped_connect]
      rw [hout]
      constructor
      · intro h
        cases h
        exact .connection e hrej hconn
      · intro h
        cases h <;> simp_all [Connected]
    | none =>
      have hk := connect_ok d s hconn
      have hcon : Connected d s req.api := ⟨hrej, hconn⟩
      cases htd : req.toDo with
      | none =>
        have hout : (Create d s req).out = .panic := by simp [Create, hc, hk, htd]
        rw [hout]
        constructor
        · intro h
          cases h
        · intro h
          cases h <;> simp_all [Connected]
      | some td =>
        cases hrem : ptypes.Timestamp td.reminder with
        | error e =>
          have hout : (Create d s req).out
              = .error ⟨.InvalidArgument, wrapped "reminder field has invalid format" e⟩ := by
            simp [Create, hc, hk, htd, hrem, wrapped_reminder]
          rw [hout]
          constructor
          · intro h
            cases h
            exact .reminder td e hcon htd hrem
          · intro h
            cases h <;> simp_all [Connected]
        | ok t =>
          rcases hexec : d.exec (.insert td.title td.description t) s with ⟨r, s1⟩
          cases r with
          | error e =>
            have hout : (Create d s req).out
                = .error ⟨.Unknown, wrapped "failed to insert into todo" e⟩ := by
              simp [Create, hc, hk, htd, hrem, hexec, wrapped_insert]
            rw [hout]
            constructor
            · intro h
              cases h
              exact .statement td t e s1 hcon htd hrem hexec
            · intro h
              cases h <;> simp_all [Connected]
          | ok res =>
            cases hl : res.lastInsertId with
            | error e =>
              have hout : (Create d s req).out
                  = .error ⟨.Unknown, wrapped "failed to retrieve id for created todo" e⟩ := by
                simp [Create, hc, hk, htd, hrem, hexec, hl, wrapped_lastInsertId]
              rw [hout]
              constructor
              · intro h
                cases h
                exact .lastInsertId td t res e s1 hcon htd hrem hexec hl
              · intro h
                cases h <;> simp_all [Connected]
            | ok id =>
              have hout : (Create d s req).out = .ok ⟨apiVersion, id⟩ := by
                simp [Create, hc, hk, htd, hrem, hexec, hl]
              rw [hout]
              constructor
              · intro h
                cases h
              · intro h
                cases h <;> simp_all [Connected]

theorem Update_error_iff {σ : Type} (d : Driver σ) (s : σ) (req : UpdateRequest)
    (st : Status) : (Update d s req).out = .error st ↔ UpdateError d s req st := by
  by_cases hrej : rejectedTag req.api
  · obtain ⟨st0, hst0⟩ := (rejectedTag_iff _).mp hrej
    have hs := checkAPI_some _ _ hst0
    subst hs
    rw [(Update_rejected d s req _ hst0).1]
    constructor
    · intro h
      cases h
      exact .version hrej
    · intro h
      cases h <;> simp_all [Connected]
  · have hc := checkAPI_of_not_rejected _ hrej
    cases hconn : d.conn s with
    | some e =>
      have hout : (Update d s req).out
          = .error ⟨.Unknown, wrapped "failed to connect to database" e⟩ := by
        simp [Update, hc, connect, hconn, wrapped_connect]
      rw [hout]
      constructor
      · intro h
        cases h
        exact .connection e hrej hconn
      · intro h
        cases h <;> simp_all [Connected]
    | none =>
      have hk := connect_ok d s hconn
      have hcon : Connected d s req.api := ⟨hrej, hconn⟩
      cases htd : req.toDo with
      | none =>
        have hout : (Update d s req).out = .panic := by simp [Update, hc, hk, htd]
        rw [hout]
        constructor
        · intro h
          cases h
        · intro h
          cases h <;> simp_all [Connected]
      | some td =>
        cases hrem : ptypes.Timestamp td.reminder with
        | error e =>
          have hout : (Update d s req).out
              = .error ⟨.InvalidArgument, wrapped "reminder field has invalid format" e⟩ := by
            simp [Update, hc, hk, htd, hrem, wrapped_reminder]
          rw [hout]
          constructor
          · intro h
            cases h
            exact .reminder td e hcon htd hrem
          · intro h
            cases h <;> simp_all [Connected]
        | ok t =>
          rcases hexec : d.exec (.update td.title td.description t td.id) s with ⟨r, s1⟩
          cases r with
          | error e =>
            have hout : (Update d s req).out
                = .error ⟨.Unknown, wrapped "failed to update todo" e⟩ := by
              simp [Update, hc, hk, htd, hrem, hexec, wrapped_update]
            rw [hout]
            constructor
            · intro h
              cases h
              exact .statement td t e s1 hcon htd hrem hexec
            · intro h
              cases h <;> simp_all [Connected]
          | ok res =>
            cases hl : res.rowsAffected with
            | error e =>
              have hout : (Update d s req).out
                  = .error ⟨.Unknown, wrapped "failed to retrieve rows affected value" e⟩ := by
                simp [Update, hc, hk, htd, hrem, hexec, hl, wrapped_rowsAffected]
              rw [hout]
              constructor
              · intro h
                cases h
                exact .rowsAffected td t res e s1 hcon htd hrem hexec hl
              · intro h
                cases h <;> simp_all [Connected]
            | ok n =>
              by_cases h0 : n = 0
              · subst h0
                have hout : (Update d s req).out = .error ⟨.NotFound, notFoundMsg td.id⟩ := by
                  simp [Update, hc, hk, htd, hrem, hexec, hl]
                rw [hout]
                constructor
                · intro h
                  cases h
                  exact .notFound td t res s1 hcon htd hrem hexec hl
                · intro h
                  cases h <;> simp_all [Connected]
              · have hout : (Update d s req).out = .ok ⟨apiVersion, n⟩ := by
                  simp [Update, hc, hk, htd, hrem, hexec, hl, h0]
                rw [hout]
                constructor
                · intro h
                  cases h
                · intro h
                  cases h <;> simp_all [Connected]

theorem Delete_error_iff {σ : Type} (d : Driver σ) (s : σ) (req : DeleteRequest)
    (st : Status) : (Delete d s req).out = .error st ↔ DeleteError d s req st := by
  by_cases hrej : rejectedTag req.api
  · obtain ⟨st0, hst0⟩ := (rejectedTag_iff _).mp hrej
    have hs := checkAPI_some _ _ hst0
    subst hs
    rw [(Delete_rejected d s req _ hst0).1]
    constructor
    · intro h
      cases h
      exact .version hrej
    · intro h
      cases h <;> simp_all [Connected]
  · have hc := checkAPI_of_not_rejected _ hrej
    cases hconn : d.conn s with
    | some e =>
      have hout : (Delete d s req).out
          = .error ⟨.Unknown, wrapped "failed to connect to database" e⟩ := by
        simp [Delete, hc, connect, hconn, wrapped_connect]
      rw [hout]
      constructor
      · intro h
        cases h
        exact .connection e hrej hconn
      · intro h
        cases h <;> simp_all [Connected]
    | none =>
      have hk := connect_ok d s hconn
      have hcon : Connected d s req.api := ⟨hrej, hconn⟩
      rcases hexec : d.exec (.delete req.id) s with ⟨r, s1⟩
      cases r with
      | error e =>
        have hout : (Delete d s req).out
            = .error ⟨.Unknown, wrapped "failed to delete todo" e⟩ := by
          simp [Delete, hc, hk, hexec, wrapped_delete]
        rw [hout]
        constructor
        · intro h
          cases h
          exact .statement e s1 hcon hexec
        · intro h
          cases h <;> simp_all [Connected]
      | ok res =>
        cases hl : res.rowsAffected with
        | error e =>
          have hout : (Delete d s req).out
              = .error ⟨.Unknown, wrapped "failed to retrieve rows affected value" e⟩ := by
            simp [Delete, hc, hk, hexec, hl, wrapped_rowsAffected]
          rw [hout]
          constructor
          · intro h
            cases h
            exact .rowsAffected res e s1 hcon hexec hl
          · intro h
            cases h <;> simp_all [Connected]
        | ok n =>
          by_cases h0 : n = 0
          · subst h0
            have hout : (Delete d s req).out = .error ⟨.NotFound, notFoundMsg req.id⟩ := by
              simp [Delete, hc, hk, hexec, hl]
            rw [hout]
            constructor
            · intro h
              cases h
              exact .notFound res s1 hcon hexec hl
            · intro h
              cases h <;> simp_all [Connected]
          · have hout : (Delete d s req).out = .ok ⟨apiVersion, n⟩ := by
              simp [Delete, hc, hk, hexec, hl, h0]
            rw [hout]
            constructor
            · intro h
              cases h
            · intro h
              cases h <;> simp_all [Connected]

theorem Read_error_iff {σ : Type} (d : Driver σ) (s : σ) (req : ReadRequest)
    (st : Status) : (Read d s req).out = .error st ↔ ReadError d s req st := by
  by_cases hrej : rejectedTag req.api
  · obtain ⟨st0, hst0⟩ := (rejectedTag_iff _).mp hrej
    have hs := checkAPI_some _ _ hst0
    subst hs
    rw [(Read_rejected d s req _ hst0).1]
    constructor
    · intro h
      cases h
      exact .version hrej
    · intro h
      cases h <;> simp_all [Connected]
  · have hc := checkAPI_of_not_rejected _ hrej
    cases hconn : d.conn s with
    | some e =>
      have hout : (Read d s req).out
          = .error ⟨.Unknown, wrapped "failed to connect to database" e⟩ := by
        simp [Read, hc, connect, hconn, wrapped_connect]
      rw [hout]
      constructor
      · intro h
        cases h
        exact .connection e hrej hconn
      · intro h
        cases h <;> simp_all [Connected]
    | none =>
      have hk := connect_ok d s hconn
      have hcon : Connected d s req.api := ⟨hrej, hconn⟩
      cases hq : d.query (.selectById req.id) s with
      | error e =>
        have hout : (Read d s req).out
            = .error ⟨.Unknown, wrapped "failed to select from todo" e⟩ := by
          simp [Read, hc, hk, hq, wrapped_select]
        rw [hout]
        constructor
        · intro h
          cases h
          exact .query e hcon hq
        · intro h
          cases h <;> simp_all [Connected]
      | ok rows =>
        cases hp : rows.pending with
        | nil =>
          cases he : rows.err with
          | some e =>
            have hout : (Read d s req).out
                = .error ⟨.Unknown, wrapped "failed to retrieve data from todo" e⟩ := by
              simp [Read, hc, hk, hq, Rows.next, hp, he, wrapped_iteration]
            rw [hout]
            constructor
            · intro h
              cases h
              exact .iteration rows e hcon hq hp he
            · intro h
              cases h <;> simp_all [Connected]
          | none =>
            have hout : (Read d s req).out = .error ⟨.NotFound, notFoundMsg req.id⟩ := by
              simp [Read, hc, hk, hq, Rows.next, hp, he]
            rw [hout]
            constructor
            · intro h
              cases h
              exact .notFound rows hcon hq hp he
            · intro h
              cases h <;> simp_all [Connected]
        | cons row rest =>
          cases row with
          | error e =>
            have hout : (Read d s req).out
                = .error ⟨.Unknown, wrapped "failed to retrieve field values from todo row" e⟩ := by
              simp [Read, hc, hk, hq, Rows.next, hp, wrapped_scan]
            rw [hout]
            constructor
            · intro h
              cases h
              exact .scan rows e rest hcon hq hp
            · intro h
              cases h <;> simp_all [Connected]
          | ok v =>
            cases hts : ptypes.TimestampProto v.reminder with
            | error e =>
              have hout : (Read d s req).out
                  = .error ⟨.Unknown, wrapped "reminder field has invalid format" e⟩ := by
                simp [Read, hc, hk, hq, Rows.next, hp, hts, wrapped_reminder]
              rw [hout]
              constructor
              · intro h
                cases h
                exact .reminder rows v e rest hcon hq hp hts
              · intro h
                cases h <;> simp_all [Connected]
            | ok ts =>
              cases rest with
              | nil =>
                have hout : (Read d s req).out = .ok ⟨apiVersion, v.toToDo ts⟩ := by
                  simp [Read, hc, hk, hq, Rows.next, hp, hts]
                rw [hout]
                constructor
                · intro h
                  cases h
                · intro h
                  cases h <;> simp_all [Connected]
              | cons r rest =>
                have hout : (Read d s req).out = .error ⟨.Unknown, multipleMsg req.id⟩ := by
                  simp [Read, hc, hk, hq, Rows.next, hp, hts]
                rw [hout]
                constructor
                · intro h
                  cases h
                  exact .multiple rows v ts r rest hcon hq hp hts
                · intro h
                  cases h <;> simp_all [Connected]

theorem decodeRow_error (e : String) : decodeRow (.error e) = none := rfl

theorem decodeRow_ok_error (v : Scanned) (e : String)
    (h : ptypes.TimestampProto v.reminder = .error e) : decodeRow (.ok v) = none := by
  simp [decodeRow, h]

theorem decodeRow_ok_ok (v : Scanned) (ts : Timestamp)
    (h : ptypes.TimestampProto v.reminder = .ok ts) : decodeRow (.ok v) = some (v.toToDo ts) := by
  simp [decodeRow, h]

theorem readAllLoop_scan (pre post : List (Except String Scanned)) (e : String)
    (list : List ToDo) (hpre : ∀ r ∈ pre, decodeRow r ≠ none) :
    readAllLoop (pre ++ .error e :: post) list
      = .error ⟨.Unknown, wrapped "failed to retrieve field values from todo row" e⟩ := by
  induction pre generalizing list with
  | nil => simp [readAllLoop, wrapped_scan]
  | cons row rest ih =>
    have hrow := hpre row (List.mem_cons_self _ _)
    have hrest : ∀ r ∈ rest, decodeRow r ≠ none := fun r hr => hpre r (List.mem_cons_of_mem _ hr)
    cases row with
    | error e0 => exact absurd (decodeRow_error e0) hrow
    | ok v =>
      cases hts : ptypes.TimestampProto v.reminder with
      | error e0 => exact absurd (decodeRow_ok_error v e0 hts) hrow
      | ok ts =>
        simp only [List.cons_append, readAllLoop, hts]
        exact ih _ hrest

theorem readAllLoop_reminder (pre post : List (Except String Scanned)) (v : Scanned)
    (e : String) (list : List ToDo) (hpre : ∀ r ∈ pre, decodeRow r ≠ none)
    (hv : ptypes.TimestampProto v.reminder = .error e) :
    readAllLoop (pre ++ .ok v :: post) list
      = .error ⟨.Unknown, wrapped "reminder field has invalid format" e⟩ := by
  induction pre generalizing list with
  | nil => simp [readAllLoop, hv, wrapped_reminder]
  | cons row rest ih =>
    have hrow := hpre row (List.mem_cons_self _ _)
    have hrest : ∀ r ∈ rest, decodeRow r ≠ none := fun r hr => hpre r (List.mem_cons_of_mem _ hr)
    cases row with
    | error e0 => exact absurd (decodeRow_error e0) hrow
    | ok v0 =>
      cases hts : ptypes.TimestampProto v0.reminder with
      | error e0 => exact absurd (decodeRow_ok_error v0 e0 hts) hrow
      | ok ts =>
        simp only [List.cons_append, readAllLoop, hts]
        exact ih _ hrest

theorem readAllLoop_error_cases (pending : List (Except String Scanned)) (list : List ToDo)
    (st : Status) (h : readAllLoop pending list = .error st) :
    (∃ pre e post, pending = pre ++ .error e :: post ∧ (∀ r ∈ pre, decodeRow r ≠ none) ∧
      st = ⟨.Unknown, wrapped "failed to retrieve field values from todo row" e⟩) ∨
    (∃ pre v e post, pending = pre ++ .ok v :: post ∧ (∀ r ∈ pre, decodeRow r ≠ none) ∧
      ptypes.TimestampProto v.reminder = .error e ∧
      st = ⟨.Unknown, wrapped "reminder field has invalid format" e⟩) := by
  induction pending generalizing list with
  | nil => simp [readAllLoop] at h
  | cons row rest ih =>
    cases row with
    | error e =>
      simp only [readAllLoop, Except.error.injEq] at h
      exact Or.inl ⟨[], e, rest, rfl, by simp, by rw [← h, wrapped_scan]⟩
    | ok v =>
      cases hts : ptypes.TimestampProto v.reminder with
      | error e =>
        simp only [readAllLoop, hts, Except.error.injEq] at h
        exact Or.inr ⟨[], v, e, rest, rfl, by simp, hts, by rw [← h, wrapped_reminder]⟩
      | ok ts =>
        simp only [readAllLoop, hts] at h
        have hv : decodeRow (.ok v) ≠ none := by simp [decodeRow_ok_ok v ts hts]
        rcases ih _ h with ⟨pre, e, post, hp, hpre, hst⟩ | ⟨pre, v1, e, post, hp, hpre, hv1, hst⟩
        · refine Or.inl ⟨.ok v :: pre, e, post, by simp [hp], ?_, hst⟩
          intro r hr
          rcases List.mem_cons.mp hr with h1 | h1
          · rw [h1]
            exact hv
          · exact hpre r h1
        · refine Or.inr ⟨.ok v :: pre, v1, e, post, by simp [hp], ?_, hv1, hst⟩
          intro r hr
          rcases List.mem_cons.mp hr with h1 | h1
          · rw [h1]
            exact hv
          · exact hpre r h1

theorem readAllLoop_ok_all (pending : List (Except String Scanned)) (list out : List ToDo)
    (h : readAllLoop pending list = .ok out) : ∀ r ∈ pending, decodeRow r ≠ none := by
  intro r hr hn
  obtain ⟨st, hst, _⟩ := readAllLoop_error pending list ⟨r, hr, hn⟩
  rw [hst] at h
  cases h

theorem readAllLoop_all_ok (pending : List (Except String Scanned)) (list : List ToDo)
    (h : ∀ r ∈ pending, decodeRow r ≠ none) : ∃ out, readAllLoop pending list = .ok out := by
  obtain ⟨items, hi⟩ := all_decode pending h
  exact ⟨_, readAllLoop_ok pending list items hi⟩

theorem ReadAll_error_iff {σ : Type} (d : Driver σ) (s : σ) (req : ReadAllRequest)
    (st : Status) : (ReadAll d s req).out = .error st ↔ ReadAllError d s req st := by
  by_cases hrej : rejectedTag req.api
  · obtain ⟨st0, hst0⟩ := (rejectedTag_iff _).mp hrej
    have hs := checkAPI_some _ _ hst0
    subst hs
    rw [(ReadAll_rejected d s req _ hst0).1]
    constructor
    · intro h
      cases h
      exact .version hrej
    · intro h
      cases h <;> simp_all [Connected]
  · have hc := checkAPI_of_not_rejected _ hrej
    cases hconn : d.conn s with
    | some e =>
      have hout : (ReadAll d s req).out
          = .error ⟨.Unknown, wrapped "failed to connect to database" e⟩ := by
        simp [ReadAll, hc, connect, hconn, wrapped_connect]
      rw [hout]
      constructor
      · intro h
        cases h
        exact .connection e hrej hconn
      · intro h
        cases h <;> simp_all [Connected]
    | none =>
      have hk := connect_ok d s hconn
      have hcon : Connected d s req.api := ⟨hrej, hconn⟩
      cases hq : d.query .selectAll s with
      | error e =>
        have hout : (ReadAll d s req).out
            = .error ⟨.Unknown, wrapped "failed to select from todo" e⟩ := by
          simp [ReadAll, hc, hk, hq, wrapped_select]
        rw [hout]
        constructor
        · intro h
          cases h
          exact .query e hcon hq
        · intro h
          cases h <;> simp_all [Connected]
      | ok rows =>
        cases hloop : readAllLoop rows.pending [] with
        | error st0 =>
          have hout : (ReadAll d s req).out = .error st0 := by
            simp [ReadAll, hc, hk, hq, hloop]
          rw [hout]
          constructor
          · intro h
            cases h
            rcases readAllLoop_error_cases _ _ _ hloop with
              ⟨pre, e, post, hp, hpre, hst⟩ | ⟨pre, v, e, post, hp, hpre, hv, hst⟩
            · rw [hst]
              exact .scan rows pre e post hcon hq hp hpre
            · rw [hst]
              exact .reminder rows pre v e post hcon hq hp hpre hv
          · intro h
            cases h with
            | version h1 => exact absurd h1 hrej
            | connection e _ h2 => simp [hconn] at h2
            | query e _ h2 => simp [hq] at h2
            | scan rows1 pre e post _ h2 hp hpre =>
              rw [hq] at h2
              cases h2
              rw [hp, readAllLoop_scan pre post e [] hpre] at hloop
              rw [← Except.error.inj hloop]
            | reminder rows1 pre v e post _ h2 hp hpre hv =>
              rw [hq] at h2
              cases h2
              rw [hp, readAllLoop_reminder pre post v e [] hpre hv] at hloop
              rw [← Except.error.inj hloop]
            | iteration rows1 e _ h2 hall _ =>
              rw [hq] at h2
              cases h2
              obtain ⟨out, ho⟩ := readAllLoop_all_ok rows.pending [] hall
              rw [ho] at hloop
              cases hloop
        | ok list =>
          have hall := readAllLoop_ok_all _ _ _ hloop
          have noScan : ∀ (pre post : List (Except String Scanned)) (e : String),
              rows.pending = pre ++ .error e :: post → False := by
            intro pre post e hp
            exact hall (.error e) (by simp [hp]) (decodeRow_error e)
          have noRem : ∀ (pre post : List (Except String Scanned)) (v : Scanned) (e : String),
              rows.pending = pre ++ .ok v :: post →
              ptypes.TimestampProto v.reminder = .error e → False := by
            intro pre post v e hp hv
            exact hall (.ok v) (by simp [hp]) (decodeRow_ok_error v e hv)
          cases he : rows.err with
          | some e =>
            have hout : (ReadAll d s req).out
                = .error ⟨.Unknown, wrapped "failed to retrieve data from todo" e⟩ := by
              simp [ReadAll, hc, hk, hq, hloop, he, wrapped_iteration]
            rw [hout]
            constructor
            · intro h
              cases h
              exact .iteration rows e hcon hq hall he
            · intro h
              cases h with
              | version h1 => exact absurd h1 hrej
              | connection e _ h2 => simp [hconn] at h2
              | query e _ h2 => simp [hq] at h2
              | scan rows1 pre e post _ h2 hp hpre =>
                rw [hq] at h2
                cases h2
                exact absurd hp (fun hp => noScan pre post e hp)
              | reminder rows1 pre v e post _ h2 hp hpre hv =>
                rw [hq] at h2
                cases h2
                exact absurd hv (fun hv => noRem pre post v e hp hv)
              | iteration rows1 e1 _ h2 hall1 he1 =>
                rw [hq] at h2
                cases h2
                rw [he] at he1
                cases he1
                rfl
          | none =>
            have hout : (ReadAll d s req).out = .ok ⟨apiVersion, some list⟩ := by
              simp [ReadAll, hc, hk, hq, hloop, he]
            rw [hout]
            constructor
            · intro h
              cases h
            · intro h
              cases h with
              | version h1 => exact absurd h1 hrej
              | connection e _ h2 => simp [hconn] at h2
              | query e _ h2 => simp [hq] at h2
              | scan rows1 pre e post _ h2 hp hpre =>
                rw [hq] at h2
                cases h2
                exact absurd hp (fun hp => noScan pre post e hp)
              | reminder rows1 pre v e post _ h2 hp hpre hv =>
                rw [hq] at h2
                cases h2
                exact absurd hv (fun hv => noRem pre post v e hp hv)
              | iteration rows1 e1 _ h2 hall1 he1 =>
                rw [hq] at h2
                cases h2
                rw [he] at he1
                cases he1

/-- C8 (amended): an error of any of the five operations is returned exactly in
the following cases.  When a collaborator call fails (connection, reminder
conversion, statement, id or affected-count retrieval, query, row decoding, row
iteration) and is the first step of the call to fail, the message is that
step's description, "-> ", and the error text the failed call returned.  The
three errors without an underlying error carry their description alone: the
version error names "v1" and the tag of the request, the not-found error and the
multiple-rows error name the requested id. -/
theorem error_messages_exact {σ : Type} (d : Driver σ) (s : σ) (st : Status)
    (cr : CreateRequest) (rr : ReadRequest) (ur : UpdateRequest) (dr : DeleteRequest)
    (ar : ReadAllRequest) :
    ((Create d s cr).out = .error st ↔ CreateError d s cr st) ∧
    ((Read d s rr).out = .error st ↔ ReadError d s rr st) ∧
    ((Update d s ur).out = .error st ↔ UpdateError d s ur st) ∧
    ((Delete d s dr).out = .error st ↔ DeleteError d s dr st) ∧
    ((ReadAll d s ar).out = .error st ↔ ReadAllError d s ar st) ∧
    (∀ cause e : String, wrapped cause e = cause ++ "-> " ++ e) :=
  ⟨Create_error_iff d s cr st, Read_error_iff d s rr st, Update_error_iff d s ur st,
    Delete_error_iff d s dr st, ReadAll_error_iff d s ar st, fun _ _ => rfl⟩

/-- Witness for C8 (amended): a Delete whose connection fails with the text "bad
connection". -/
theorem error_messages_exact_witness :
    (Delete (fixedDriver (some "bad connection") (.error "") (.error "")) () ⟨"v1", 1⟩).out
      = .error ⟨.Unknown, wrapped "failed to connect to database" "bad connection"⟩ :=
  (error_messages_exact (fixedDriver (some "bad connection") (.error "") (.error "")) ()
    ⟨.Unknown, wrapped "failed to connect to database" "bad connection"⟩
    ⟨"v1", none⟩ ⟨"v1", 1⟩ ⟨"v1", none⟩ ⟨"v1", 1⟩ ⟨"v1"⟩).2.2.2.1.mpr
      (.connection "bad connection" (by decide) rfl)

end ToDoService
